import Mathlib

/-!
Shallow embedding of the SDVN registration chaincode
(`sdvnregistration.js` together with `wormhole.js`, the blackhole helper
module, `poison.js` and `replay.js`).

Modelling conventions:
* JS numbers that the code keeps finite are rationals (`ℚ`).
* A parsed timestamp is `Ts := Option ℤ` milliseconds; `none` models a
  string that `Date.parse` rejects (`NaN`).
* A numeric argument parsed with `Number(...)` is `Option ℚ`; `none`
  models `NaN`.
* The ledger is two association lists keyed by VIN (the code prefixes the
  keys with `vinreg:` / `vehicle:`, which only separates the two maps).
* Each operation returns the post-call ledger state together with either a
  typed error (the code throws `Error` with a fixed message) or a result
  payload mirroring the returned JSON object.  Writes performed before a
  throw are kept in the returned state, so "fails without writing" is a
  real property of the code, not of the embedding.
-/

namespace SDVN

/-- JS `Math.round`: round half toward positive infinity.  Written with
`Rat.floor` so that it evaluates in the kernel; `jsRound_def` below
identifies it with the mathematical floor. -/
def jsRound (q : ℚ) : ℤ := (q + 1/2).floor

theorem ratFloor_eq_intFloor (q : ℚ) : q.floor = ⌊q⌋ := by
  rw [Rat.floor_def', Rat.floor_def]

theorem jsRound_def (q : ℚ) : jsRound q = ⌊q + 1/2⌋ := ratFloor_eq_intFloor _

/-- Rounding half away from zero, as the specification words it. -/
def roundHalfAwayFromZero (q : ℚ) : ℤ := if 0 ≤ q then ⌊q + 1/2⌋ else ⌈q - 1/2⌉

/-- Parsed timestamp: `some t` is epoch milliseconds, `none` an unparsable string. -/
abbrev Ts := Option ℤ

/-- `toNumberOrZero` applied to a possibly-absent numeric field. -/
def toNumberOrZero : Option ℚ → ℚ
  | none => 0
  | some q => q

/-- JS `String(x)` for a field that may be `undefined`. -/
def strJS : Option String → String
  | none => "undefined"
  | some s => s

/-- JS `String(x || '')` for a possibly absent string field. -/
def statusStr : Option String → String
  | none => ""
  | some s => s

-- ---------- record shapes ----------

/-- `location` object of a generation-1 wormhole vote; a coordinate of
`none` models a non-finite `Number(...)`. -/
structure Loc where
  longitude : Option ℚ
  latitude : Option ℚ
deriving Repr, DecidableEq

/-- Entry of `vehicle.neighborArray` (wormhole votes, both generations). -/
structure WormVote where
  neighborId : Option String
  vote : ℚ
  location : Option Loc
  timestamp : Ts
deriving Repr, DecidableEq

/-- Entry of `vehicle.neighborArrayBlackholeVotes`. -/
structure BlackVote where
  neighborId : String
  vote : ℚ
  timestamp : Ts
deriving Repr, DecidableEq

/-- Routing-data payload compared by `routingDataMatches`; every field may
be absent (`undefined`). -/
structure RoutingData where
  destinationID : Option String
  nextHopID : Option String
  path : Option (List String)
  hopCount : Option ℚ
  linkQuality : Option ℚ
  latency : Option ℚ
  bandwidth : Option ℚ
  status : Option String
deriving Repr, DecidableEq

/-- Entry of `vehicle.neighborArrayRoutingData` (poison votes). -/
structure PoisonVote where
  neighborId : String
  vote : ℚ
  routingData : Option RoutingData
  timestamp : Ts
deriving Repr, DecidableEq

/-- Entry of `vehicle.flowIdReplay`. -/
structure FlowEntry where
  flowId : String
  timestamp : Ts
deriving Repr, DecidableEq

/-- Entry of `vehicle.locations`. -/
structure LocEntry where
  latitude : Option ℚ
  longitude : Option ℚ
  timestamp : Ts
deriving Repr, DecidableEq

/-- The per-vehicle aggregate stored under key `vehicle:<vin>`.
`overallTrustScore` is `none` until some operation persists it
(`registerVehicle` does not set the field).  `flowIdReplay` is read
through `Array.isArray(...) ? ... : []` everywhere, so an absent field is
identified with the empty list. -/
structure Vehicle where
  vin : String
  publicKey : String
  registrationStatus : String
  trustedScoreSybil : ℚ
  trustedScoreWromehole : ℚ
  trustScoreBlackhole : ℚ
  trustScorePoison : ℚ
  trustScoreReplay : ℚ
  overallTrustScore : Option ℤ
  neighborArray : List WormVote
  neighborArrayBlackholeVotes : List BlackVote
  neighborArrayRoutingData : List PoisonVote
  flowIdReplay : List FlowEntry
  locations : List LocEntry
  createdAt : ℤ
deriving Repr, DecidableEq

/-- Authority record stored under key `vinreg:<vin>`. -/
structure AuthRec where
  vin : String
  createdAt : ℤ
  issuer : String
deriving Repr, DecidableEq

/-- The persisted key-value state, split into the two key prefixes. -/
structure LedgerState where
  authorities : List (String × AuthRec)
  vehicles : List (String × Vehicle)
deriving Repr, DecidableEq

-- ---------- association-list primitives ----------

/-- Key lookup in an association list (first match wins). -/
def lookupA {β : Type} (k : String) : List (String × β) → Option β
  | [] => none
  | p :: rest => if p.1 = k then some p.2 else lookupA k rest

/-- `putState`: replace the first binding of `k`, or append a new one. -/
def putAssoc {β : Type} (k : String) (v : β) : List (String × β) → List (String × β)
  | [] => [(k, v)]
  | p :: rest => if p.1 = k then (k, v) :: rest else p :: putAssoc k v rest

theorem lookupA_putAssoc_self {β : Type} (k : String) (v : β) :
    ∀ l : List (String × β), lookupA k (putAssoc k v l) = some v := by
  intro l
  induction l with
  | nil => simp [lookupA, putAssoc]
  | cons p rest ih =>
    by_cases h : p.1 = k
    · simp [lookupA, putAssoc, h]
    · simp [lookupA, putAssoc, h, ih]

theorem lookupA_putAssoc_ne {β : Type} (k k' : String) (v : β) (hne : k ≠ k') :
    ∀ l : List (String × β), lookupA k' (putAssoc k v l) = lookupA k' l := by
  intro l
  induction l with
  | nil => simp [lookupA, putAssoc, hne]
  | cons p rest ih =>
    by_cases h : p.1 = k
    · have hpk : p.1 ≠ k' := by rw [h]; exact hne
      simp [lookupA, putAssoc, h, hne, hpk]
    · simp [lookupA, putAssoc, h, ih]

theorem putAssoc_lookupA_self {β : Type} (k : String) (v : β) :
    ∀ l : List (String × β), lookupA k l = some v → putAssoc k v l = l := by
  intro l
  induction l with
  | nil => simp [lookupA]
  | cons p rest ih =>
    intro hl
    by_cases h : p.1 = k
    · simp only [lookupA, h, if_pos rfl, Option.some.injEq] at hl
      have : (k, v) = p := by
        cases p with
        | mk a b =>
          simp only [if_true] at hl
          simp only at h
          rw [h]
          injection hl with hv
          rw [hv]
      simp [putAssoc, h, this]
    · simp only [lookupA, if_neg h] at hl
      simp [putAssoc, h, ih hl]

def putVeh (σ : LedgerState) (vin : String) (v : Vehicle) : LedgerState :=
  { σ with vehicles := putAssoc vin v σ.vehicles }

def putAuth (σ : LedgerState) (vin : String) (r : AuthRec) : LedgerState :=
  { σ with authorities := putAssoc vin r σ.authorities }

-- ---------- identity context and RBAC guard ----------

/-- Client identity attributes: `role` and (for vehicle identities) `vin`.
`none` models an absent attribute. -/
structure Identity where
  role : Option String
  vinAttr : Option String
deriving Repr, DecidableEq

/-- ASCII lower-casing, as `String.toLowerCase` acts on the role strings
here (defined over the character list so that it evaluates in the kernel). -/
def lowerStr (s : String) : String := String.mk (s.data.map Char.toLower)

/-- ASCII upper-casing, as `String.toUpperCase` acts on `Status` fields. -/
def upperStr (s : String) : String := String.mk (s.data.map Char.toUpper)

/-- `getClientRole`: the role attribute (defaulting to the empty string),
lower-cased. -/
def getClientRole (ident : Identity) : String :=
  lowerStr (ident.role.getD "")

/-- Typed counterpart of the `Error` messages thrown by the code. -/
inductive EngineError where
  /-- `Access denied for role ...` thrown by `requireRole`. -/
  | accessDenied (role : String) (allowed : List String)
  /-- `Vehicle identity can only act on its own VIN`. -/
  | notOwner
  /-- a missing/malformed argument, with the thrown message -/
  | validation (msg : String)
  /-- `Vehicle <vin> not found` -/
  | notFound (vin : String)
  /-- `Registration denied. VIN <vin> not found in trusted authority registry` -/
  | registrationDenied (vin : String)
  /-- `Vehicle <vin> is already registered` -/
  | alreadyRegistered (vin : String)
deriving Repr, DecidableEq

/-- `requireRole(ctx, allowed)`: case-insensitive membership test of the
client role in the allowed list. -/
def requireRole (ident : Identity) (allowed : List String) : Except EngineError String :=
  let role := getClientRole ident
  if role ∈ allowed.map lowerStr then Except.ok role
  else Except.error (EngineError.accessDenied role allowed)

/-- `ensureVehicleOwnsVIN`: enforced only for role `vehicle`; the bound
`vin` attribute must be non-empty and equal to the target VIN. -/
def ensureVehicleOwnsVIN (ident : Identity) (vin : String) : Except EngineError Unit :=
  if getClientRole ident = "vehicle" then
    let vinAttr := ident.vinAttr.getD ""
    if vinAttr = "" ∨ vinAttr ≠ vin then Except.error EngineError.notOwner
    else Except.ok ()
  else Except.ok ()

-- ---------- result payloads ----------

/-- Result payloads, mirroring the JSON objects each operation returns. -/
inductive Out where
  /-- plain string result (duplicate `storeVIN`) -/
  | msg (s : String)
  /-- `storeVIN` success: the created authority record -/
  | authStored (r : AuthRec)
  /-- `storeVINRange` summary -/
  | rangeSummary (startVin endVin : ℤ) (added skipped : List String)
  /-- `listVINStatuses`: `(vin, storedAt, registered)` rows -/
  | vinList (rows : List (String × ℤ × Bool))
  /-- `registerVehicle`: the created record -/
  | vehicleJson (v : Vehicle)
  /-- `resetTrustScores` summary (all five scores are 100) -/
  | resetDone (overallTrustScore : ℤ)
  /-- `storeLocation` result -/
  | locationStored (count : ℕ) (last : LocEntry)
  /-- `storeNeighborVote` result -/
  | wormVoteStored (lastVote : WormVote) (count : ℕ)
  /-- generation-1 `crossValidation` result -/
  | wormCross (decision : String) (before after delta : ℚ) (considered : ℕ)
  /-- `storeNeighborVoteV3` result -/
  | wormVoteStoredV3 (lastVote : WormVote) (count : ℕ)
  /-- `crossValidationV3` result -/
  | wormCrossV3 (decision : String) (before after delta : ℚ) (considered : ℕ)
      (overallTrustScore : ℤ) (purgedVotes : ℕ)
  /-- `storeBlackholeNeighborVote` result -/
  | blackVoteStored (lastVote : BlackVote) (count : ℕ)
  /-- `reduceBlackholeScore` result -/
  | blackReduce (before after delta overallBefore : ℚ) (overallAfter : ℤ)
  /-- `evaluateBlackholeVotes` result; `overallAfter` is reported only on
  the penalizing branch -/
  | blackEval (decision : String) (ones zeros : ℕ) (before after delta : ℚ)
      (overallAfter : Option ℤ)
  /-- `storePoisonNeighborRoutingVote` result -/
  | poisonVoteStored (lastVote : PoisonVote) (count : ℕ)
  /-- `crossValidationPoison` result -/
  | poisonCross (decision : String) (considered : ℕ) (before after delta : ℚ)
      (overallAfter : Option ℤ)
  /-- `storeFlowIdReplay` result -/
  | flowStored (stored : FlowEntry) (count : ℕ)
  /-- `checkFlowIdReplay` result -/
  | replayCheck (flowExists : Bool) (recentCount purged : ℕ) (checkedAt : ℤ)
deriving Repr, DecidableEq

/-- State after the call paired with the thrown error or returned payload. -/
abbrev OpResult := LedgerState × Except EngineError Out

-- ---------- shared time helpers ----------

/-- A user-supplied timestamp argument: `none` is a missing/blank string
(the code substitutes the transaction time), `some ts` a non-blank string
whose parse result is `ts`. -/
abbrev TsArg := Option Ts

/-- `timestamp && String(timestamp).trim() ? String(timestamp) : txNowIso(ctx)`
followed by `Date.parse`. -/
def resolveTs (arg : TsArg) (now : ℤ) : Ts :=
  match arg with
  | none => some now
  | some ts => ts

/-- `t >= lo && t <= hi` on a parsed entry timestamp (`NaN` fails). -/
def inWindow (lo hi : ℤ) : Ts → Bool
  | some t => decide (lo ≤ t) && decide (t ≤ hi)
  | none => false

/-- Milliseconds in 10 minutes. -/
def MS_10MIN : ℤ := 10 * 60 * 1000

/-- Milliseconds in 60 minutes. -/
def MS_60MIN : ℤ := 60 * 60 * 1000

/-- Milliseconds in 24 hours. -/
def MS_24H : ℤ := 24 * 60 * 60 * 1000

/-- Average-of-five used by `computeOverallTrust` in the blackhole and
poison helpers, by `getVehicle` and inline by `crossValidationV3`.  With
rational (hence finite) scores all three JS variants coincide: every score
passes the `Number.isFinite` filter, so the mean is over all five. -/
def computeOverallTrust (v : Vehicle) : ℤ :=
  jsRound ((v.trustedScoreSybil + v.trustedScoreWromehole + v.trustScoreBlackhole +
    v.trustScorePoison + v.trustScoreReplay) / 5)

-- ---------- registration-contract operations ----------
-- Arguments arrive as strings; an empty string is falsy, so the `!arg`
-- guards are modelled as `= ""` tests.  The `vote === undefined || null`
-- guards cannot fire for string-typed chaincode arguments and are omitted.

/-- `storeVIN(ctx, vin)`. -/
def storeVIN (ident : Identity) (now : ℤ) (vin : String) (σ : LedgerState) : OpResult :=
  match requireRole ident ["trustedAuthority"] with
  | .error e => (σ, .error e)
  | .ok _ =>
    if vin = "" then (σ, .error (.validation "vin is required"))
    else
      match lookupA vin σ.authorities with
      | some _ => (σ, .ok (.msg ("VIN " ++ vin ++ " already stored by trusted authority")))
      | none =>
        let record : AuthRec := ⟨vin, now, "trustedAuthority"⟩
        (putAuth σ vin record, .ok (.authStored record))

/-- `storeVINRange(ctx, start, end)`; bounds are `Number(...)`-parsed and
must be positive integers with `start ≤ end`. -/
def storeVINRange (ident : Identity) (now : ℤ) (startArg endArg : Option ℚ)
    (σ : LedgerState) : OpResult :=
  match requireRole ident ["trustedAuthority"] with
  | .error e => (σ, .error e)
  | .ok _ =>
    match startArg, endArg with
    | some s, some e =>
      if s.den = 1 ∧ e.den = 1 ∧ 0 < s ∧ 0 < e then
        if s ≤ e then
          let sI := s.num
          let eI := e.num
          let vins := (List.range (eI - sI).toNat.succ).map (fun i => toString (sI + (i : ℤ)))
          let step := fun (acc : LedgerState × List String × List String) (vin : String) =>
            match lookupA vin acc.1.authorities with
            | some _ => (acc.1, acc.2.1, acc.2.2 ++ [vin])
            | none =>
              let record : AuthRec := ⟨vin, now, "trustedAuthority"⟩
              (putAuth acc.1 vin record, acc.2.1 ++ [vin], acc.2.2)
          let res := vins.foldl step (σ, [], [])
          (res.1, .ok (.rangeSummary sI eI res.2.1 res.2.2))
        else (σ, .error (.validation "start cannot be greater than end"))
      else (σ, .error (.validation "start and end must be positive integers"))
    | _, _ => (σ, .error (.validation "start and end must be positive integers"))

/-- `listVINStatuses(ctx)`: read-only scan over the `vinreg:` prefix. -/
def listVINStatuses (ident : Identity) (σ : LedgerState) : OpResult :=
  match requireRole ident ["controller", "trustedAuthority"] with
  | .error e => (σ, .error e)
  | .ok _ =>
    let rows := σ.authorities.map (fun p =>
      (p.2.vin, p.2.createdAt, (lookupA p.2.vin σ.vehicles).isSome))
    (σ, .ok (.vinList rows))

/-- The record `registerVehicle` creates on success: all five sub-scores
at 100, every log empty, status defaulting to `registered`. -/
def newVehicleRecord (vin publicKey registrationStatus : String) (now : ℤ) : Vehicle := {
  vin := vin
  publicKey := publicKey
  registrationStatus := if registrationStatus = "" then "registered" else registrationStatus
  trustedScoreSybil := 100
  trustedScoreWromehole := 100
  trustScoreBlackhole := 100
  trustScorePoison := 100
  trustScoreReplay := 100
  overallTrustScore := none
  neighborArray := []
  neighborArrayBlackholeVotes := []
  neighborArrayRoutingData := []
  flowIdReplay := []
  locations := []
  createdAt := now }

/-- `registerVehicle(ctx, vin, publicKey, registrationStatus)`. -/
def registerVehicle (ident : Identity) (now : ℤ)
    (vin publicKey registrationStatus : String) (σ : LedgerState) : OpResult :=
  match requireRole ident ["controller"] with
  | .error e => (σ, .error e)
  | .ok _ =>
    if vin = "" ∨ publicKey = "" then
      (σ, .error (.validation "vin and publicKey are required"))
    else
      match lookupA vin σ.authorities with
      | none => (σ, .error (.registrationDenied vin))
      | some _ =>
        match lookupA vin σ.vehicles with
        | some _ => (σ, .error (.alreadyRegistered vin))
        | none =>
          let vehicle := newVehicleRecord vin publicKey registrationStatus now
          (putVeh σ vin vehicle, .ok (.vehicleJson vehicle))

/-- `getVehicle(ctx, vin)`: vehicles only for their own VIN, otherwise
controller/trustedAuthority; returns the record with a freshly computed
`overallTrustScore`. -/
def getVehicle (ident : Identity) (vin : String) (σ : LedgerState) : OpResult :=
  let roleCheck : Except EngineError Unit :=
    if getClientRole ident = "vehicle" then ensureVehicleOwnsVIN ident vin
    else (requireRole ident ["controller", "trustedAuthority"]).map (fun _ => ())
  match roleCheck with
  | .error e => (σ, .error e)
  | .ok _ =>
    match lookupA vin σ.vehicles with
    | none => (σ, .error (.notFound vin))
    | some vehicle =>
      (σ, .ok (.vehicleJson { vehicle with overallTrustScore := some (computeOverallTrust vehicle) }))

/-- The record update `resetTrustScores` applies: the five sub-scores back
to 100 and the three vote logs cleared; every other field untouched. -/
def resetVehicleRecord (v : Vehicle) : Vehicle :=
  { v with
    trustedScoreSybil := 100, trustedScoreWromehole := 100,
    trustScoreBlackhole := 100, trustScorePoison := 100, trustScoreReplay := 100,
    neighborArray := [], neighborArrayBlackholeVotes := [], neighborArrayRoutingData := [] }

/-- `resetTrustScores(ctx, vin)`. -/
def resetTrustScores (ident : Identity) (vin : String) (σ : LedgerState) : OpResult :=
  match requireRole ident ["controller", "trustedAuthority"] with
  | .error e => (σ, .error e)
  | .ok _ =>
    if vin = "" then (σ, .error (.validation "vin is required"))
    else match lookupA vin σ.vehicles with
    | none => (σ, .error (.notFound vin))
    | some vehicle =>
      let vehicle2 := resetVehicleRecord vehicle
      (putVeh σ vin vehicle2, .ok (.resetDone (jsRound ((100 + 100 + 100 + 100 + 100) / 5))))

/-- `vehicle.locations.push(entry)` followed by `slice(-20)` when over 20. -/
def pushLoc (locs : List LocEntry) (e : LocEntry) : List LocEntry :=
  let l := locs ++ [e]
  if 20 < l.length then l.drop (l.length - 20) else l

/-- `storeLocation(ctx, vin, latitude, longitude, timestamp)`. -/
def storeLocation (ident : Identity) (now : ℤ) (vin : String)
    (latitude longitude : Option ℚ) (timestamp : TsArg) (σ : LedgerState) : OpResult :=
  let roleCheck : Except EngineError Unit :=
    if getClientRole ident = "vehicle" then ensureVehicleOwnsVIN ident vin
    else (requireRole ident ["controller"]).map (fun _ => ())
  match roleCheck with
  | .error e => (σ, .error e)
  | .ok _ =>
    match lookupA vin σ.vehicles with
    | none => (σ, .error (.notFound vin))
    | some vehicle =>
      let entry : LocEntry := ⟨latitude, longitude, resolveTs timestamp now⟩
      let locs := pushLoc vehicle.locations entry
      let vehicle2 := { vehicle with locations := locs }
      (putVeh σ vin vehicle2, .ok (.locationStored locs.length entry))

-- ---------- wormhole module ----------

/-- `COORD_TOLERANCE_DEG = 0.0005`. -/
def COORD_TOLERANCE_DEG : ℚ := 5 / 10000

/-- `withinTolerance(a, b)`: absolute difference at most the tolerance;
false when either operand is non-finite. -/
def withinTolerance (a b : Option ℚ) : Bool :=
  match a, b with
  | some x, some y => decide (|x - y| ≤ COORD_TOLERANCE_DEG)
  | _, _ => false

/-- `storeNeighborVote(ctx, helpers, vin, neighborId, vote, longitude, latitude, timestamp)`. -/
def storeNeighborVote (ident : Identity) (now : ℤ) (vin neighborId : String)
    (vote : Option ℚ) (longitude latitude : Option ℚ) (timestamp : TsArg)
    (σ : LedgerState) : OpResult :=
  match requireRole ident ["vehicle"] with
  | .error e => (σ, .error e)
  | .ok _ =>
    if vin = "" ∨ neighborId = "" then
      (σ, .error (.validation "vin, neighborId and vote are required"))
    else
      match lookupA vin σ.vehicles with
      | none => (σ, .error (.notFound vin))
      | some vehicle =>
        let v : ℚ := if vote = some 1 then 1 else 0
        let entry : WormVote :=
          ⟨some neighborId, v, some ⟨longitude, latitude⟩, resolveTs timestamp now⟩
        let arr := vehicle.neighborArray ++ [entry]
        let vehicle2 := { vehicle with neighborArray := arr }
        (putVeh σ vin vehicle2, .ok (.wormVoteStored entry arr.length))

/-- Generation-1 `crossValidation(ctx, helpers, vin, longitudeV, latitudeV, timestampV)`. -/
def crossValidation (ident : Identity) (now : ℤ) (vin : String)
    (longitudeV latitudeV : Option ℚ) (timestampV : TsArg) (σ : LedgerState) : OpResult :=
  match requireRole ident ["vehicle"] with
  | .error e => (σ, .error e)
  | .ok _ =>
  match ensureVehicleOwnsVIN ident vin with
  | .error e => (σ, .error e)
  | .ok _ =>
  if vin = "" then (σ, .error (.validation "vin is required"))
  else match lookupA vin σ.vehicles with
  | none => (σ, .error (.notFound vin))
  | some vehicle =>
    match resolveTs timestampV now with
    | none => (σ, .error (.validation "timestampV is invalid"))
    | some tsV =>
      let windowStart := tsV - MS_10MIN
      let windowVotes := vehicle.neighborArray.filter
        (fun e => inWindow windowStart tsV e.timestamp)
      if windowVotes.isEmpty then
        (σ, .ok (.wormCross "no-votes" vehicle.trustedScoreWromehole
          vehicle.trustedScoreWromehole 0 0))
      else
        let ones := windowVotes.filter (fun e => decide (e.vote = 1))
        let zeros := windowVotes.filter (fun e => !(decide (e.vote = 1)))
        let dd : String × ℚ :=
          if zeros.length < ones.length then
            let loc : Loc := match ones.head? with
              | some e => e.location.getD ⟨none, none⟩
              | none => ⟨none, none⟩
            if withinTolerance loc.longitude longitudeV &&
               withinTolerance loc.latitude latitudeV
            then ("no-change", 0) else ("penalized-mismatch", -1)
          else if ones.length < zeros.length then ("penalized-majority0", -2)
          else ("no-majority", 0)
        let before := vehicle.trustedScoreWromehole
        let after := max 0 (before + dd.2)
        if dd.2 ≠ 0 then
          let vehicle2 := { vehicle with trustedScoreWromehole := after }
          (putVeh σ vin vehicle2, .ok (.wormCross dd.1 before after dd.2 windowVotes.length))
        else
          (σ, .ok (.wormCross dd.1 before after dd.2 windowVotes.length))

/-- `storeNeighborVoteV3(ctx, helpers, vin, vote, timestamp)`. -/
def storeNeighborVoteV3 (ident : Identity) (now : ℤ) (vin : String)
    (vote : Option ℚ) (timestamp : TsArg) (σ : LedgerState) : OpResult :=
  match requireRole ident ["controller"] with
  | .error e => (σ, .error e)
  | .ok _ =>
    if vin = "" then (σ, .error (.validation "vin and vote are required"))
    else match lookupA vin σ.vehicles with
    | none => (σ, .error (.notFound vin))
    | some vehicle =>
      let v : ℚ := if vote = some 1 then 1 else 0
      let entry : WormVote := ⟨none, v, none, resolveTs timestamp now⟩
      let arr := vehicle.neighborArray ++ [entry]
      (putVeh σ vin { vehicle with neighborArray := arr },
        .ok (.wormVoteStoredV3 entry arr.length))

/-- `crossValidationV3(ctx, helpers, vin)`: 60-minute evaluation window,
penalty −1 on majority zero, unconditional overall recompute and 24-hour
purge, with a single final write. -/
def crossValidationV3 (ident : Identity) (now : ℤ) (vin : String)
    (σ : LedgerState) : OpResult :=
  match requireRole ident ["controller"] with
  | .error e => (σ, .error e)
  | .ok _ =>
    if vin = "" then (σ, .error (.validation "vin is required"))
    else match lookupA vin σ.vehicles with
    | none => (σ, .error (.notFound vin))
    | some vehicle =>
      let windowStart := now - MS_60MIN
      let oneDayAgo := now - MS_24H
      let votes := vehicle.neighborArray
      let windowVotes := votes.filter (fun e => inWindow windowStart now e.timestamp)
      let dd : String × ℚ :=
        if windowVotes.length ≠ 0 then
          let onesLen := (windowVotes.filter (fun e => decide (e.vote = 1))).length
          let zerosLen := (windowVotes.filter (fun e => !(decide (e.vote = 1)))).length
          if onesLen < zerosLen then ("penalized-majority0", -1)
          else if zerosLen < onesLen then ("no-penalty-majority1", 0)
          else ("no-majority", 0)
        else ("no-votes", 0)
      let before := vehicle.trustedScoreWromehole
      let after := max 0 (before + dd.2)
      let newScore := if dd.2 ≠ 0 then after else before
      let vehicle1 := { vehicle with trustedScoreWromehole := newScore }
      let overall := computeOverallTrust vehicle1
      let purgedList := votes.filter (fun e => match e.timestamp with
        | some t => decide (oneDayAgo < t)
        | none => false)
      let purgeCount := votes.length - purgedList.length
      let vehicle2 := { vehicle1 with
        overallTrustScore := some overall, neighborArray := purgedList }
      (putVeh σ vin vehicle2,
        .ok (.wormCrossV3 dd.1 before vehicle2.trustedScoreWromehole dd.2
          windowVotes.length overall purgeCount))

-- ---------- blackhole module ----------

/-- `Number(x) || 1`: `NaN` (unparsable or missing) and `0` fall back to 1. -/
def jsOrOne (d : Option ℚ) : ℚ :=
  match d with
  | none => 1
  | some q => if q = 0 then 1 else q

/-- `reduceTrustScoreBlackhole(ctx, helpers, vin, delta)`. -/
def reduceTrustScoreBlackhole (ident : Identity) (vin : String)
    (delta : Option ℚ) (σ : LedgerState) : OpResult :=
  match requireRole ident ["controller"] with
  | .error e => (σ, .error e)
  | .ok _ =>
    if vin = "" then (σ, .error (.validation "vin is required"))
    else match lookupA vin σ.vehicles with
    | none => (σ, .error (.notFound vin))
    | some vehicle =>
      let reduceBy := max 0 (jsOrOne delta)
      let before := vehicle.trustScoreBlackhole
      let after := max 0 (before - reduceBy)
      let vehicle1 := { vehicle with trustScoreBlackhole := after }
      let overallBefore := toNumberOrZero (vehicle.overallTrustScore.map (fun z => (z : ℚ)))
      let overallAfter := computeOverallTrust vehicle1
      let vehicle2 := { vehicle1 with overallTrustScore := some overallAfter }
      (putVeh σ vin vehicle2,
        .ok (.blackReduce before after (-reduceBy) overallBefore overallAfter))

/-- `storeNeighborVoteBlackhole(ctx, helpers, vin, neighborId, vote, timestamp)`. -/
def storeNeighborVoteBlackhole (ident : Identity) (now : ℤ) (vin neighborId : String)
    (vote : Option ℚ) (timestamp : TsArg) (σ : LedgerState) : OpResult :=
  match requireRole ident ["vehicle"] with
  | .error e => (σ, .error e)
  | .ok _ =>
    if vin = "" ∨ neighborId = "" then
      (σ, .error (.validation "vin, neighborId and vote are required"))
    else match lookupA vin σ.vehicles with
    | none => (σ, .error (.notFound vin))
    | some vehicle =>
      let entry : BlackVote :=
        ⟨neighborId, if vote = some 1 then 1 else 0, resolveTs timestamp now⟩
      let arr := vehicle.neighborArrayBlackholeVotes ++ [entry]
      (putVeh σ vin { vehicle with neighborArrayBlackholeVotes := arr },
        .ok (.blackVoteStored entry arr.length))

/-- `evaluateBlackholeVotes(ctx, helpers, vin, reduceBy)`: last-10-minutes
majority; penalize only on majority zero. -/
def evaluateBlackholeVotes (ident : Identity) (now : ℤ) (vin : String)
    (reduceBy : Option ℚ) (σ : LedgerState) : OpResult :=
  match requireRole ident ["controller"] with
  | .error e => (σ, .error e)
  | .ok _ =>
    if vin = "" then (σ, .error (.validation "vin is required"))
    else match lookupA vin σ.vehicles with
    | none => (σ, .error (.notFound vin))
    | some vehicle =>
      let windowStart := now - MS_10MIN
      let windowVotes := vehicle.neighborArrayBlackholeVotes.filter
        (fun e => inWindow windowStart now e.timestamp)
      if windowVotes.isEmpty then
        let current := vehicle.trustScoreBlackhole
        (σ, .ok (.blackEval "no-votes" 0 0 current current 0 none))
      else
        let ones := (windowVotes.filter (fun e => decide (e.vote = 1))).length
        let zeros := (windowVotes.filter (fun e => !(decide (e.vote = 1)))).length
        let before := vehicle.trustScoreBlackhole
        if ones < zeros then
          let decQ := max 0 (jsOrOne reduceBy)
          let after := max 0 (before - decQ)
          let vehicle1 := { vehicle with trustScoreBlackhole := after }
          let overallAfter := computeOverallTrust vehicle1
          let vehicle2 := { vehicle1 with overallTrustScore := some overallAfter }
          (putVeh σ vin vehicle2,
            .ok (.blackEval "penalized-majority0" ones zeros before after (-decQ)
              (some overallAfter)))
        else
          let decision := if zeros < ones then "majority1-no-penalty" else "no-majority"
          (σ, .ok (.blackEval decision ones zeros before before 0 none))

-- ---------- poison module ----------

/-- `TOL_LINK_QUALITY = 0.05`. -/
def TOL_LINK_QUALITY : ℚ := 5 / 100

/-- `TOL_LATENCY = 1.0`. -/
def TOL_LATENCY : ℚ := 1

/-- `TOL_BANDWIDTH = 0.5`. -/
def TOL_BANDWIDTH : ℚ := 1 / 2

/-- `approxEqual(a, b, tol)`: false when either operand is non-finite. -/
def approxEqual (a b : Option ℚ) (tol : ℚ) : Bool :=
  match a, b with
  | some x, some y => decide (|x - y| ≤ tol)
  | _, _ => false

/-- `arraysEqual(a, b)`: element-wise stringified equality (elements are
modelled already stringified). -/
def arraysEqual (a b : Option (List String)) : Bool :=
  match a, b with
  | some x, some y => x == y
  | _, _ => false

/-- `routingDataMatches(a, b)` on two present routing-data objects. -/
def routingDataMatches (a b : RoutingData) : Bool :=
  strJS a.destinationID == strJS b.destinationID &&
  strJS a.nextHopID == strJS b.nextHopID &&
  arraysEqual a.path b.path &&
  decide (toNumberOrZero a.hopCount = toNumberOrZero b.hopCount) &&
  approxEqual a.linkQuality b.linkQuality TOL_LINK_QUALITY &&
  approxEqual a.latency b.latency TOL_LATENCY &&
  approxEqual a.bandwidth b.bandwidth TOL_BANDWIDTH &&
  (if a.status.isSome || b.status.isSome
   then upperStr (statusStr a.status) == upperStr (statusStr b.status)
   else true)

/-- `routingDataMatches(sample && sample.routingData, rdV)`: an absent
first operand fails the match (`!a` guard). -/
def routingDataMatchesOpt : Option RoutingData → RoutingData → Bool
  | none, _ => false
  | some a, b => routingDataMatches a b

/-- `storeNeighborRoutingVote(ctx, helpers, vin, neighborId, vote,
routingData, timestamp)`; `routingData` is the result of `parseMaybeJson`,
which never fails (junk decodes to an empty object). -/
def storeNeighborRoutingVote (ident : Identity) (now : ℤ) (vin neighborId : String)
    (vote : Option ℚ) (routingData : RoutingData) (timestamp : TsArg)
    (σ : LedgerState) : OpResult :=
  match requireRole ident ["vehicle"] with
  | .error e => (σ, .error e)
  | .ok _ =>
    if vin = "" ∨ neighborId = "" then
      (σ, .error (.validation "vin, neighborId and vote are required"))
    else match lookupA vin σ.vehicles with
    | none => (σ, .error (.notFound vin))
    | some vehicle =>
      let entry : PoisonVote :=
        ⟨neighborId, if vote = some 1 then 1 else 0, some routingData, resolveTs timestamp now⟩
      let arr := vehicle.neighborArrayRoutingData ++ [entry]
      (putVeh σ vin { vehicle with neighborArrayRoutingData := arr },
        .ok (.poisonVoteStored entry arr.length))

/-- `crossValidationPoison(ctx, helpers, vin, routingDataV, timestampV)`:
unconditional 24-hour purge (dropping unparsable timestamps), then
10-minute-window majority with structural matching. -/
def crossValidationPoison (ident : Identity) (now : ℤ) (vin : String)
    (routingDataV : RoutingData) (timestampV : TsArg) (σ : LedgerState) : OpResult :=
  match requireRole ident ["vehicle"] with
  | .error e => (σ, .error e)
  | .ok _ =>
  match ensureVehicleOwnsVIN ident vin with
  | .error e => (σ, .error e)
  | .ok _ =>
  if vin = "" then (σ, .error (.validation "vin is required"))
  else match lookupA vin σ.vehicles with
  | none => (σ, .error (.notFound vin))
  | some vehicle =>
    match resolveTs timestampV now with
    | none => (σ, .error (.validation "timestampV is invalid"))
    | some tRef =>
      let windowStart := tRef - MS_10MIN
      let cutoff24h := tRef - MS_24H
      let allVotes := vehicle.neighborArrayRoutingData
      let kept := allVotes.filter (fun e => match e.timestamp with
        | some t => decide (cutoff24h ≤ t)
        | none => false)
      let recent := allVotes.filter (fun e => match e.timestamp with
        | some t => decide (cutoff24h ≤ t) && decide (windowStart ≤ t) && decide (t ≤ tRef)
        | none => false)
      let purgeState : LedgerState × Vehicle :=
        if kept.length ≠ allVotes.length then
          let v1 := { vehicle with neighborArrayRoutingData := kept }
          (putVeh σ vin v1, v1)
        else (σ, vehicle)
      let σ1 := purgeState.1
      let vehicle1 := purgeState.2
      if recent.isEmpty then
        (σ1, .ok (.poisonCross "no-votes" 0 vehicle1.trustScorePoison
          vehicle1.trustScorePoison 0 vehicle1.overallTrustScore))
      else
        let ones := recent.filter (fun e => decide (e.vote = 1))
        let zeros := recent.filter (fun e => !(decide (e.vote = 1)))
        let dd : String × ℚ :=
          if zeros.length < ones.length then
            let sampleRD : Option RoutingData :=
              match ones.find? (fun e => e.routingData.isSome) with
              | some e => e.routingData
              | none => match ones.head? with
                | some e => e.routingData
                | none => none
            if routingDataMatchesOpt sampleRD routingDataV
            then ("majority1-match-no-penalty", 0) else ("penalized-mismatch", -1)
          else if ones.length < zeros.length then ("penalized-majority0", -2)
          else ("no-majority", 0)
        let before := vehicle1.trustScorePoison
        let after := max 0 (before + dd.2)
        if dd.2 ≠ 0 then
          let vehicle2 := { vehicle1 with trustScorePoison := after }
          let vehicle3 := { vehicle2 with overallTrustScore := some (computeOverallTrust vehicle2) }
          (putVeh σ1 vin vehicle3,
            .ok (.poisonCross dd.1 recent.length before after dd.2 vehicle3.overallTrustScore))
        else
          (σ1, .ok (.poisonCross dd.1 recent.length before after dd.2 vehicle1.overallTrustScore))

-- ---------- replay module ----------

/-- `storeFlowIdReplay(ctx, helpers, senderVin, flowId, timestamp)`:
appends to the sender record's `flowIdReplay`. -/
def storeFlowIdReplay (ident : Identity) (now : ℤ) (senderVin flowId : String)
    (timestamp : TsArg) (σ : LedgerState) : OpResult :=
  match requireRole ident ["vehicle"] with
  | .error e => (σ, .error e)
  | .ok _ =>
    if senderVin = "" ∨ flowId = "" then
      (σ, .error (.validation "senderVin and flowId are required"))
    else match lookupA senderVin σ.vehicles with
    | none => (σ, .error (.notFound senderVin))
    | some vehicle =>
      let entry : FlowEntry := ⟨flowId, resolveTs timestamp now⟩
      let arr := vehicle.flowIdReplay ++ [entry]
      (putVeh σ senderVin { vehicle with flowIdReplay := arr },
        .ok (.flowStored entry arr.length))

/-- `checkFlowIdReplay(ctx, helpers, senderVin, flowId)`: partitions the
log into the last-24-hours entries (kept) and the rest (purged, persisted
when non-zero), then reports whether a kept entry matches. -/
def checkFlowIdReplay (ident : Identity) (now : ℤ) (senderVin flowId : String)
    (σ : LedgerState) : OpResult :=
  match requireRole ident ["vehicle"] with
  | .error e => (σ, .error e)
  | .ok _ =>
    if senderVin = "" ∨ flowId = "" then
      (σ, .error (.validation "senderVin and flowId are required"))
    else match lookupA senderVin σ.vehicles with
    | none => (σ, .error (.notFound senderVin))
    | some vehicle =>
      let cutoff := now - MS_24H
      let all := vehicle.flowIdReplay
      let recent := all.filter (fun e => inWindow cutoff now e.timestamp)
      let purged := all.length - recent.length
      let σ1 := if 0 < purged
        then putVeh σ senderVin { vehicle with flowIdReplay := recent }
        else σ
      let ex := recent.any (fun e => e.flowId == flowId)
      (σ1, .ok (.replayCheck ex recent.length purged now))

-- ---------- uniform operation dispatcher ----------

/-- One constructor per contract operation, with its positional arguments
(already parsed per the conventions above). -/
inductive Op where
  | storeVIN (vin : String)
  | storeVINRange (startArg endArg : Option ℚ)
  | listVINStatuses
  | registerVehicle (vin publicKey registrationStatus : String)
  | getVehicle (vin : String)
  | resetTrustScores (vin : String)
  | storeLocation (vin : String) (latitude longitude : Option ℚ) (timestamp : TsArg)
  | storeNeighborVote (vin neighborId : String) (vote : Option ℚ)
      (longitude latitude : Option ℚ) (timestamp : TsArg)
  | crossValidation (vin : String) (longitudeV latitudeV : Option ℚ) (timestampV : TsArg)
  | storeNeighborVoteV3 (vin : String) (vote : Option ℚ) (timestamp : TsArg)
  | crossValidationV3 (vin : String)
  | storeBlackholeNeighborVote (vin neighborId : String) (vote : Option ℚ) (timestamp : TsArg)
  | reduceBlackholeScore (vin : String) (delta : Option ℚ)
  | evaluateBlackholeVotes (vin : String) (reduceBy : Option ℚ)
  | storePoisonNeighborRoutingVote (vin neighborId : String) (vote : Option ℚ)
      (routingData : RoutingData) (timestamp : TsArg)
  | crossValidationPoison (vin : String) (routingDataV : RoutingData) (timestampV : TsArg)
  | storeFlowIdReplay (senderVin flowId : String) (timestamp : TsArg)
  | checkFlowIdReplay (senderVin flowId : String)
deriving Repr, DecidableEq

/-- The allowed-role set of each operation, as dispatched by the contract
(for `getVehicle` and `storeLocation` the `vehicle` role goes through the
ownership check instead of `requireRole`). -/
def allowedRoles : Op → List String
  | .storeVIN _ => ["trustedAuthority"]
  | .storeVINRange _ _ => ["trustedAuthority"]
  | .listVINStatuses => ["controller", "trustedAuthority"]
  | .registerVehicle _ _ _ => ["controller"]
  | .getVehicle _ => ["controller", "trustedAuthority", "vehicle"]
  | .resetTrustScores _ => ["controller", "trustedAuthority"]
  | .storeLocation _ _ _ _ => ["controller", "vehicle"]
  | .storeNeighborVote _ _ _ _ _ _ => ["vehicle"]
  | .crossValidation _ _ _ _ => ["vehicle"]
  | .storeNeighborVoteV3 _ _ _ => ["controller"]
  | .crossValidationV3 _ => ["controller"]
  | .storeBlackholeNeighborVote _ _ _ _ => ["vehicle"]
  | .reduceBlackholeScore _ _ => ["controller"]
  | .evaluateBlackholeVotes _ _ => ["controller"]
  | .storePoisonNeighborRoutingVote _ _ _ _ _ => ["vehicle"]
  | .crossValidationPoison _ _ _ => ["vehicle"]
  | .storeFlowIdReplay _ _ _ => ["vehicle"]
  | .checkFlowIdReplay _ _ => ["vehicle"]

/-- Run one contract invocation: identity context, transaction time in
milliseconds, operation, pre-state. -/
def runOp (ident : Identity) (now : ℤ) : Op → LedgerState → OpResult
  | .storeVIN vin, σ => storeVIN ident now vin σ
  | .storeVINRange s e, σ => storeVINRange ident now s e σ
  | .listVINStatuses, σ => listVINStatuses ident σ
  | .registerVehicle vin pk st, σ => registerVehicle ident now vin pk st σ
  | .getVehicle vin, σ => getVehicle ident vin σ
  | .resetTrustScores vin, σ => resetTrustScores ident vin σ
  | .storeLocation vin la lo ts, σ => storeLocation ident now vin la lo ts σ
  | .storeNeighborVote vin nId v lo la ts, σ => storeNeighborVote ident now vin nId v lo la ts σ
  | .crossValidation vin lo la ts, σ => crossValidation ident now vin lo la ts σ
  | .storeNeighborVoteV3 vin v ts, σ => storeNeighborVoteV3 ident now vin v ts σ
  | .crossValidationV3 vin, σ => crossValidationV3 ident now vin σ
  | .storeBlackholeNeighborVote vin nId v ts, σ => storeNeighborVoteBlackhole ident now vin nId v ts σ
  | .reduceBlackholeScore vin d, σ => reduceTrustScoreBlackhole ident vin d σ
  | .evaluateBlackholeVotes vin r, σ => evaluateBlackholeVotes ident now vin r σ
  | .storePoisonNeighborRoutingVote vin nId v rd ts, σ => storeNeighborRoutingVote ident now vin nId v rd ts σ
  | .crossValidationPoison vin rd ts, σ => crossValidationPoison ident now vin rd ts σ
  | .storeFlowIdReplay sv f ts, σ => storeFlowIdReplay ident now sv f ts σ
  | .checkFlowIdReplay sv f, σ => checkFlowIdReplay ident now sv f σ

-- ---------- RBAC lemmas ----------

theorem jsRound_all100 : jsRound ((100 + 100 + 100 + 100 + 100) / 5) = 100 := by
  rw [jsRound_def]
  rw [show ((100:ℚ) + 100 + 100 + 100 + 100) / 5 + 1/2 = 100 + 1/2 by norm_num]
  rw [Int.floor_eq_iff]
  constructor <;> norm_num

theorem requireRole_fail (ident : Identity) (allowed : List String)
    (h : getClientRole ident ∉ allowed.map lowerStr) :
    requireRole ident allowed =
      Except.error (EngineError.accessDenied (getClientRole ident) allowed) := by
  simp [requireRole, h]

theorem requireRole_ok (ident : Identity) (allowed : List String)
    (h : getClientRole ident ∈ allowed.map lowerStr) :
    requireRole ident allowed = Except.ok (getClientRole ident) := by
  simp [requireRole, h]

theorem lowerRoles_v : (["vehicle"] : List String).map lowerStr = ["vehicle"] := by decide

theorem lowerRoles_c : (["controller"] : List String).map lowerStr = ["controller"] := by decide

theorem lowerRoles_ta :
    (["trustedAuthority"] : List String).map lowerStr = ["trustedauthority"] := by decide

theorem lowerRoles_cta : (["controller", "trustedAuthority"] : List String).map lowerStr =
    ["controller", "trustedauthority"] := by decide

theorem lowerRoles_ctav :
    (["controller", "trustedAuthority", "vehicle"] : List String).map lowerStr =
      ["controller", "trustedauthority", "vehicle"] := by decide

theorem lowerRoles_cv :
    (["controller", "vehicle"] : List String).map lowerStr = ["controller", "vehicle"] := by decide

/-- C3: for every operation of the engine and every identity whose
(lower-cased) role is outside that operation's allowed role set, the call
fails with an authorization error (`accessDenied`) and performs no
state-store write: the persisted state is identical before and after. -/
theorem accessDenied_noWrite (ident : Identity) (now : ℤ) (op : Op) (σ : LedgerState)
    (h : getClientRole ident ∉ (allowedRoles op).map lowerStr) :
    (runOp ident now op σ).1 = σ ∧
    ∃ allowed, (runOp ident now op σ).2 =
      Except.error (EngineError.accessDenied (getClientRole ident) allowed) := by
  cases op with
  | storeVIN vin =>
    rw [allowedRoles] at h
    simp [runOp, SDVN.storeVIN, requireRole_fail ident _ h]
  | storeVINRange s e =>
    rw [allowedRoles] at h
    simp [runOp, SDVN.storeVINRange, requireRole_fail ident _ h]
  | listVINStatuses =>
    rw [allowedRoles] at h
    simp [runOp, SDVN.listVINStatuses, requireRole_fail ident _ h]
  | registerVehicle vin pk st =>
    rw [allowedRoles] at h
    simp [runOp, SDVN.registerVehicle, requireRole_fail ident _ h]
  | getVehicle vin =>
    rw [allowedRoles, lowerRoles_ctav] at h
    have hnv : getClientRole ident ≠ "vehicle" := by
      intro hh; exact h (by rw [hh]; simp)
    have h2 : getClientRole ident ∉ (["controller", "trustedAuthority"] : List String).map lowerStr := by
      rw [lowerRoles_cta]
      intro hh; apply h
      simp only [List.mem_cons, List.not_mem_nil, or_false] at hh ⊢
      tauto
    simp [runOp, SDVN.getVehicle, hnv, requireRole_fail ident _ h2, Except.map]
  | resetTrustScores vin =>
    rw [allowedRoles] at h
    simp [runOp, SDVN.resetTrustScores, requireRole_fail ident _ h]
  | storeLocation vin la lo ts =>
    rw [allowedRoles, lowerRoles_cv] at h
    have hnv : getClientRole ident ≠ "vehicle" := by
      intro hh; exact h (by rw [hh]; simp)
    have h2 : getClientRole ident ∉ (["controller"] : List String).map lowerStr := by
      rw [lowerRoles_c]
      intro hh; apply h
      simp only [List.mem_cons, List.not_mem_nil, or_false] at hh ⊢
      tauto
    simp [runOp, SDVN.storeLocation, hnv, requireRole_fail ident _ h2, Except.map]
  | storeNeighborVote vin nId v lo la ts =>
    rw [allowedRoles] at h
    simp [runOp, SDVN.storeNeighborVote, requireRole_fail ident _ h]
  | crossValidation vin lo la ts =>
    rw [allowedRoles] at h
    simp [runOp, SDVN.crossValidation, requireRole_fail ident _ h]
  | storeNeighborVoteV3 vin v ts =>
    rw [allowedRoles] at h
    simp [runOp, SDVN.storeNeighborVoteV3, requireRole_fail ident _ h]
  | crossValidationV3 vin =>
    rw [allowedRoles] at h
    simp [runOp, SDVN.crossValidationV3, requireRole_fail ident _ h]
  | storeBlackholeNeighborVote vin nId v ts =>
    rw [allowedRoles] at h
    simp [runOp, SDVN.storeNeighborVoteBlackhole, requireRole_fail ident _ h]
  | reduceBlackholeScore vin d =>
    rw [allowedRoles] at h
    simp [runOp, SDVN.reduceTrustScoreBlackhole, requireRole_fail ident _ h]
  | evaluateBlackholeVotes vin r =>
    rw [allowedRoles] at h
    simp [runOp, SDVN.evaluateBlackholeVotes, requireRole_fail ident _ h]
  | storePoisonNeighborRoutingVote vin nId v rd ts =>
    rw [allowedRoles] at h
    simp [runOp, SDVN.storeNeighborRoutingVote, requireRole_fail ident _ h]
  | crossValidationPoison vin rd ts =>
    rw [allowedRoles] at h
    simp [runOp, SDVN.crossValidationPoison, requireRole_fail ident _ h]
  | storeFlowIdReplay sv f ts =>
    rw [allowedRoles] at h
    simp [runOp, SDVN.storeFlowIdReplay, requireRole_fail ident _ h]
  | checkFlowIdReplay sv f =>
    rw [allowedRoles] at h
    simp [runOp, SDVN.checkFlowIdReplay, requireRole_fail ident _ h]

-- ---------- shared concrete fixtures for witnesses ----------

/-- A freshly registered sample vehicle for concrete witnesses. -/
def sampleVehicle : Vehicle :=
  { vin := "7", publicKey := "pk", registrationStatus := "registered",
    trustedScoreSybil := 100, trustedScoreWromehole := 100, trustScoreBlackhole := 100,
    trustScorePoison := 100, trustScoreReplay := 100, overallTrustScore := none,
    neighborArray := [], neighborArrayBlackholeVotes := [], neighborArrayRoutingData := [],
    flowIdReplay := [], locations := [], createdAt := 0 }

/-- A ledger holding the sample vehicle and its authority record. -/
def sampleState : LedgerState :=
  ⟨[("7", ⟨"7", 0, "trustedAuthority"⟩)], [("7", sampleVehicle)]⟩

/-- A controller identity. -/
def controllerId : Identity := ⟨some "controller", none⟩

/-- The vehicle identity bound to VIN 7. -/
def vehicleId7 : Identity := ⟨some "vehicle", some "7"⟩

/-- Witness for C3: a `hacker` role invoking `getVehicle` on the empty
ledger is denied and the state is unchanged. -/
theorem accessDenied_noWrite_witness :
    (runOp ⟨some "hacker", none⟩ 0 (Op.getVehicle "1") ⟨[], []⟩).1 = (⟨[], []⟩ : LedgerState) ∧
    ∃ allowed, (runOp ⟨some "hacker", none⟩ 0 (Op.getVehicle "1") ⟨[], []⟩).2 =
      Except.error (EngineError.accessDenied (getClientRole ⟨some "hacker", none⟩) allowed) :=
  accessDenied_noWrite ⟨some "hacker", none⟩ 0 (Op.getVehicle "1") ⟨[], []⟩ (by decide)

/-- C6: `registerVehicle` is exactly-once per VIN: with no matching
authority record it fails with `registrationDenied` and writes nothing;
with an existing vehicle record it fails with `alreadyRegistered` and
writes nothing (so the existing record is unchanged); otherwise it creates
the record with all five sub-scores at 100 and every log empty. -/
theorem registerVehicle_exactlyOnce (ident : Identity) (now : ℤ)
    (vin publicKey status : String) (σ : LedgerState)
    (hrole : getClientRole ident = "controller")
    (hvin : vin ≠ "") (hpk : publicKey ≠ "") :
    (lookupA vin σ.authorities = none →
      runOp ident now (.registerVehicle vin publicKey status) σ =
        (σ, Except.error (EngineError.registrationDenied vin))) ∧
    ((lookupA vin σ.authorities).isSome → (lookupA vin σ.vehicles).isSome →
      runOp ident now (.registerVehicle vin publicKey status) σ =
        (σ, Except.error (EngineError.alreadyRegistered vin))) ∧
    ((lookupA vin σ.authorities).isSome → lookupA vin σ.vehicles = none →
      runOp ident now (.registerVehicle vin publicKey status) σ =
        (putVeh σ vin (newVehicleRecord vin publicKey status now),
          Except.ok (Out.vehicleJson (newVehicleRecord vin publicKey status now)))) ∧
    (newVehicleRecord vin publicKey status now).trustedScoreSybil = 100 ∧
    (newVehicleRecord vin publicKey status now).trustedScoreWromehole = 100 ∧
    (newVehicleRecord vin publicKey status now).trustScoreBlackhole = 100 ∧
    (newVehicleRecord vin publicKey status now).trustScorePoison = 100 ∧
    (newVehicleRecord vin publicKey status now).trustScoreReplay = 100 ∧
    (newVehicleRecord vin publicKey status now).neighborArray = [] ∧
    (newVehicleRecord vin publicKey status now).neighborArrayBlackholeVotes = [] ∧
    (newVehicleRecord vin publicKey status now).neighborArrayRoutingData = [] ∧
    (newVehicleRecord vin publicKey status now).flowIdReplay = [] ∧
    (newVehicleRecord vin publicKey status now).locations = [] := by
  have hr : requireRole ident ["controller"] = Except.ok (getClientRole ident) :=
    requireRole_ok ident _ (by rw [lowerRoles_c, hrole]; simp)
  refine ⟨?_, ?_, ?_, rfl, rfl, rfl, rfl, rfl, rfl, rfl, rfl, rfl, rfl⟩
  · intro ha
    simp [runOp, SDVN.registerVehicle, hr, hvin, hpk, ha]
  · intro ha hv
    rw [Option.isSome_iff_exists] at ha hv
    obtain ⟨a, ha⟩ := ha
    obtain ⟨v, hv⟩ := hv
    simp [runOp, SDVN.registerVehicle, hr, hvin, hpk, ha, hv]
  · intro ha hv
    rw [Option.isSome_iff_exists] at ha
    obtain ⟨a, ha⟩ := ha
    simp [runOp, SDVN.registerVehicle, hr, hvin, hpk, ha, hv]

/-- Witness for C6: registering VIN 7 (already registered in the sample
state) and VIN 9 (absent from the authority registry). -/
theorem registerVehicle_exactlyOnce_witness :
    (lookupA "7" sampleState.authorities = none →
      runOp controllerId 5 (.registerVehicle "7" "pk2" "") sampleState =
        (sampleState, Except.error (EngineError.registrationDenied "7"))) ∧
    ((lookupA "7" sampleState.authorities).isSome → (lookupA "7" sampleState.vehicles).isSome →
      runOp controllerId 5 (.registerVehicle "7" "pk2" "") sampleState =
        (sampleState, Except.error (EngineError.alreadyRegistered "7"))) ∧
    ((lookupA "7" sampleState.authorities).isSome → lookupA "7" sampleState.vehicles = none →
      runOp controllerId 5 (.registerVehicle "7" "pk2" "") sampleState =
        (putVeh sampleState "7" (newVehicleRecord "7" "pk2" "" 5),
          Except.ok (Out.vehicleJson (newVehicleRecord "7" "pk2" "" 5)))) ∧
    (newVehicleRecord "7" "pk2" "" 5).trustedScoreSybil = 100 ∧
    (newVehicleRecord "7" "pk2" "" 5).trustedScoreWromehole = 100 ∧
    (newVehicleRecord "7" "pk2" "" 5).trustScoreBlackhole = 100 ∧
    (newVehicleRecord "7" "pk2" "" 5).trustScorePoison = 100 ∧
    (newVehicleRecord "7" "pk2" "" 5).trustScoreReplay = 100 ∧
    (newVehicleRecord "7" "pk2" "" 5).neighborArray = [] ∧
    (newVehicleRecord "7" "pk2" "" 5).neighborArrayBlackholeVotes = [] ∧
    (newVehicleRecord "7" "pk2" "" 5).neighborArrayRoutingData = [] ∧
    (newVehicleRecord "7" "pk2" "" 5).flowIdReplay = [] ∧
    (newVehicleRecord "7" "pk2" "" 5).locations = [] :=
  registerVehicle_exactlyOnce controllerId 5 "7" "pk2" "" sampleState (by decide)
    (by decide) (by decide)

/-- C8: `resetTrustScores` puts all five sub-scores back to 100 and clears
the wormhole, blackhole and poison vote logs, while leaving `flowIdLog`
(`flowIdReplay`), `locationHistory` (`locations`), `vin`, `publicKey`,
`registrationStatus`, `createdAt` and the persisted `overallTrustScore`
field unchanged; the write replaces only this vehicle's binding. -/
theorem resetTrustScores_frame (ident : Identity) (now : ℤ) (vin : String)
    (σ : LedgerState) (v : Vehicle)
    (hrole : getClientRole ident ∈ (["controller", "trustedAuthority"] : List String).map lowerStr)
    (hvin : vin ≠ "") (hv : lookupA vin σ.vehicles = some v) :
    runOp ident now (.resetTrustScores vin) σ =
      (putVeh σ vin (resetVehicleRecord v), Except.ok (Out.resetDone 100)) ∧
    (resetVehicleRecord v).trustedScoreSybil = 100 ∧
    (resetVehicleRecord v).trustedScoreWromehole = 100 ∧
    (resetVehicleRecord v).trustScoreBlackhole = 100 ∧
    (resetVehicleRecord v).trustScorePoison = 100 ∧
    (resetVehicleRecord v).trustScoreReplay = 100 ∧
    (resetVehicleRecord v).neighborArray = [] ∧
    (resetVehicleRecord v).neighborArrayBlackholeVotes = [] ∧
    (resetVehicleRecord v).neighborArrayRoutingData = [] ∧
    (resetVehicleRecord v).flowIdReplay = v.flowIdReplay ∧
    (resetVehicleRecord v).locations = v.locations ∧
    (resetVehicleRecord v).vin = v.vin ∧
    (resetVehicleRecord v).publicKey = v.publicKey ∧
    (resetVehicleRecord v).registrationStatus = v.registrationStatus ∧
    (resetVehicleRecord v).createdAt = v.createdAt ∧
    (resetVehicleRecord v).overallTrustScore = v.overallTrustScore := by
  have hr : requireRole ident ["controller", "trustedAuthority"] =
      Except.ok (getClientRole ident) := requireRole_ok ident _ hrole
  refine ⟨?_, rfl, rfl, rfl, rfl, rfl, rfl, rfl, rfl, rfl, rfl, rfl, rfl, rfl, rfl, rfl⟩
  simp [runOp, SDVN.resetTrustScores, hr, hvin, hv, jsRound_all100]

/-- Witness for C8: resetting the sample vehicle. -/
theorem resetTrustScores_frame_witness :
    runOp controllerId 3 (.resetTrustScores "7") sampleState =
      (putVeh sampleState "7" (resetVehicleRecord sampleVehicle),
        Except.ok (Out.resetDone 100)) ∧
    (resetVehicleRecord sampleVehicle).trustedScoreSybil = 100 ∧
    (resetVehicleRecord sampleVehicle).trustedScoreWromehole = 100 ∧
    (resetVehicleRecord sampleVehicle).trustScoreBlackhole = 100 ∧
    (resetVehicleRecord sampleVehicle).trustScorePoison = 100 ∧
    (resetVehicleRecord sampleVehicle).trustScoreReplay = 100 ∧
    (resetVehicleRecord sampleVehicle).neighborArray = [] ∧
    (resetVehicleRecord sampleVehicle).neighborArrayBlackholeVotes = [] ∧
    (resetVehicleRecord sampleVehicle).neighborArrayRoutingData = [] ∧
    (resetVehicleRecord sampleVehicle).flowIdReplay = sampleVehicle.flowIdReplay ∧
    (resetVehicleRecord sampleVehicle).locations = sampleVehicle.locations ∧
    (resetVehicleRecord sampleVehicle).vin = sampleVehicle.vin ∧
    (resetVehicleRecord sampleVehicle).publicKey = sampleVehicle.publicKey ∧
    (resetVehicleRecord sampleVehicle).registrationStatus = sampleVehicle.registrationStatus ∧
    (resetVehicleRecord sampleVehicle).createdAt = sampleVehicle.createdAt ∧
    (resetVehicleRecord sampleVehicle).overallTrustScore = sampleVehicle.overallTrustScore :=
  resetTrustScores_frame controllerId 3 "7" sampleState sampleVehicle (by decide)
    (by decide) (by decide)

/-- `Math.round` agrees with rounding half away from zero on non-negative
inputs. -/
theorem jsRound_eq_roundHalfAwayFromZero (q : ℚ) (h : 0 ≤ q) :
    jsRound q = roundHalfAwayFromZero q := by
  rw [jsRound_def, roundHalfAwayFromZero, if_pos h]

/-- C4: `getVehicle` returns the stored record with `overallTrustScore`
replaced by the freshly computed rounded mean of the five sub-scores
(round half away from zero, which is what `Math.round` does on the
non-negative scores), whatever `overallTrustScore` value was previously
persisted on the record (`v.overallTrustScore` is arbitrary here and does
not occur on the right-hand side); the call writes nothing. -/
theorem getVehicle_freshOverall (ident : Identity) (now : ℤ) (vin : String)
    (σ : LedgerState) (v : Vehicle)
    (hrole : getClientRole ident = "controller")
    (hv : lookupA vin σ.vehicles = some v)
    (h1 : 0 ≤ v.trustedScoreSybil) (h2 : 0 ≤ v.trustedScoreWromehole)
    (h3 : 0 ≤ v.trustScoreBlackhole) (h4 : 0 ≤ v.trustScorePoison)
    (h5 : 0 ≤ v.trustScoreReplay) :
    runOp ident now (.getVehicle vin) σ =
      (σ, Except.ok (Out.vehicleJson
        { v with
          overallTrustScore := some (roundHalfAwayFromZero
            ((v.trustedScoreSybil + v.trustedScoreWromehole + v.trustScoreBlackhole +
              v.trustScorePoison + v.trustScoreReplay) / 5)) })) := by
  have hnv : getClientRole ident ≠ "vehicle" := by rw [hrole]; decide
  have hr : requireRole ident ["controller", "trustedAuthority"] =
      Except.ok (getClientRole ident) :=
    requireRole_ok ident _ (by rw [lowerRoles_cta, hrole]; simp)
  have hmean : (0:ℚ) ≤ (v.trustedScoreSybil + v.trustedScoreWromehole +
      v.trustScoreBlackhole + v.trustScorePoison + v.trustScoreReplay) / 5 := by
    positivity
  simp [runOp, SDVN.getVehicle, hnv, hr, Except.map, hv, computeOverallTrust,
    jsRound_eq_roundHalfAwayFromZero _ hmean]

/-- A vehicle with a distinct sybil score and a stale persisted overall
value, with its ledger, for the C4 witness. -/
def sampleVehicle8 : Vehicle :=
  { sampleVehicle with vin := "8", trustedScoreSybil := 97, overallTrustScore := some 55 }

/-- Ledger holding only `sampleVehicle8`. -/
def sampleState8 : LedgerState := ⟨[], [("8", sampleVehicle8)]⟩

-- ---------- ring-buffer lemmas for C7 ----------

/-- The last `n` elements of a list, as `Array.slice(-n)` keeps them. -/
def lastN {α : Type} (n : ℕ) (l : List α) : List α := l.drop (l.length - n)

theorem lastN_eq_reverse_take {α : Type} (n : ℕ) (l : List α) :
    lastN n l = (l.reverse.take n).reverse := by
  induction l with
  | nil => simp [lastN]
  | cons x xs ih =>
    rw [lastN] at ih ⊢
    by_cases h : xs.length + 1 ≤ n
    · rw [Nat.sub_eq_zero_of_le (by simpa using h), List.drop_zero,
        List.take_of_length_le (by simpa using h), List.reverse_reverse]
    · have hn : n ≤ xs.length := by omega
      have : (x :: xs).length - n = (xs.length - n) + 1 := by
        simp only [List.length_cons]; omega
      rw [this, List.drop_succ_cons, ih, List.reverse_cons,
        List.take_append_eq_append_take, Nat.sub_eq_zero_of_le (by simpa using hn),
        List.take_zero, List.append_nil]

theorem lastN_length_le {α : Type} (n : ℕ) (l : List α) : (lastN n l).length ≤ n := by
  rw [lastN, List.length_drop]; omega

theorem lastN_of_length_le {α : Type} {n : ℕ} {l : List α} (h : l.length ≤ n) :
    lastN n l = l := by
  rw [lastN, Nat.sub_eq_zero_of_le h, List.drop_zero]

theorem lastN_append_lastN {α : Type} (n : ℕ) (a b : List α) :
    lastN n (lastN n a ++ b) = lastN n (a ++ b) := by
  rw [lastN_eq_reverse_take, lastN_eq_reverse_take, lastN_eq_reverse_take,
    List.reverse_append, List.reverse_append, List.reverse_reverse,
    List.take_append_eq_append_take, List.take_append_eq_append_take,
    List.take_take, Nat.min_eq_left (Nat.sub_le n _)]

theorem lastN_append_right {α : Type} (n : ℕ) (a b : List α) (h : n ≤ b.length) :
    lastN n (a ++ b) = lastN n b := by
  rw [lastN_eq_reverse_take, lastN_eq_reverse_take, List.reverse_append,
    List.take_append_eq_append_take,
    Nat.sub_eq_zero_of_le (by simpa using h), List.take_zero, List.append_nil]

theorem pushLoc_eq_lastN (locs : List LocEntry) (e : LocEntry) :
    pushLoc locs e = lastN 20 (locs ++ [e]) := by
  rw [pushLoc, lastN]
  split
  · rfl
  · next h => rw [Nat.sub_eq_zero_of_le (by omega), List.drop_zero]

theorem pushLoc_length_le (locs : List LocEntry) (e : LocEntry) :
    (pushLoc locs e).length ≤ 20 := by
  rw [pushLoc_eq_lastN]; exact lastN_length_le 20 _

theorem foldl_pushLoc_small (es : List LocEntry) :
    ∀ init : List LocEntry, init.length ≤ 20 →
      List.foldl pushLoc init es = lastN 20 (init ++ es) := by
  induction es with
  | nil => intro init h; rw [List.foldl_nil, List.append_nil, lastN_of_length_le h]
  | cons e es ih =>
    intro init h
    rw [List.foldl_cons, ih (pushLoc init e) (pushLoc_length_le init e),
      pushLoc_eq_lastN, lastN_append_lastN,
      show (init ++ [e]) ++ es = init ++ (e :: es) by simp]

theorem foldl_pushLoc_large (es : List LocEntry) (init : List LocEntry)
    (h : 20 ≤ es.length) : List.foldl pushLoc init es = lastN 20 es := by
  cases es with
  | nil => simp at h
  | cons e es =>
    rw [List.foldl_cons, foldl_pushLoc_small es (pushLoc init e) (pushLoc_length_le init e),
      pushLoc_eq_lastN, lastN_append_lastN,
      show (init ++ [e]) ++ es = init ++ (e :: es) by simp,
      lastN_append_right 20 init (e :: es) (by simpa using h)]

-- ---------- C7 ----------

/-- The location entry a `storeLocation` call appends. -/
def locEntryOf (now : ℤ) (a : Option ℚ × Option ℚ × TsArg) : LocEntry :=
  ⟨a.1, a.2.1, resolveTs a.2.2 now⟩

/-- A sequence of `storeLocation` invocations, threading the state. -/
def runLocs (ident : Identity) (now : ℤ) (vin : String)
    (args : List (Option ℚ × Option ℚ × TsArg)) (σ : LedgerState) : LedgerState :=
  args.foldl (fun s a => (runOp ident now (.storeLocation vin a.1 a.2.1 a.2.2) s).1) σ

theorem storeLocation_controller_step (ident : Identity) (now : ℤ) (vin : String)
    (σ : LedgerState) (w : Vehicle) (la lo : Option ℚ) (ts : TsArg)
    (hrole : getClientRole ident = "controller")
    (hv : lookupA vin σ.vehicles = some w) :
    (runOp ident now (.storeLocation vin la lo ts) σ).1 =
      putVeh σ vin { w with locations := pushLoc w.locations ⟨la, lo, resolveTs ts now⟩ } := by
  have hnv : getClientRole ident ≠ "vehicle" := by rw [hrole]; decide
  have hr : requireRole ident ["controller"] = Except.ok (getClientRole ident) :=
    requireRole_ok ident _ (by rw [lowerRoles_c, hrole]; simp)
  simp [runOp, SDVN.storeLocation, hnv, hr, Except.map, hv]

theorem runLocs_locations (ident : Identity) (now : ℤ) (vin : String)
    (args : List (Option ℚ × Option ℚ × TsArg)) :
    ∀ (σ : LedgerState) (w : Vehicle), getClientRole ident = "controller" →
    lookupA vin σ.vehicles = some w →
    lookupA vin (runLocs ident now vin args σ).vehicles =
      some { w with locations := List.foldl pushLoc w.locations (args.map (locEntryOf now)) } := by
  induction args with
  | nil => intro σ w hr hv; exact hv
  | cons a args ih =>
    intro σ w hr hv
    rw [runLocs, List.foldl_cons,
      storeLocation_controller_step ident now vin σ w a.1 a.2.1 a.2.2 hr hv]
    have hv2 : lookupA vin (putVeh σ vin
        { w with locations := pushLoc w.locations ⟨a.1, a.2.1, resolveTs a.2.2 now⟩ }).vehicles =
        some { w with locations := pushLoc w.locations ⟨a.1, a.2.1, resolveTs a.2.2 now⟩ } :=
      lookupA_putAssoc_self vin _ σ.vehicles
    have := ih (putVeh σ vin
      { w with locations := pushLoc w.locations ⟨a.1, a.2.1, resolveTs a.2.2 now⟩ })
      { w with locations := pushLoc w.locations ⟨a.1, a.2.1, resolveTs a.2.2 now⟩ } hr hv2
    rw [runLocs] at this
    exact this

/-- C7: after any sequence of more than 20 `storeLocation` calls by a
controller on one registered vehicle, the stored `locations` history is
exactly the last 20 appended entries in insertion order (so has length
20); and a single `storeLocation` update never leaves more than 20
entries, whatever the previous buffer was. -/
theorem storeLocation_ringBuffer (ident : Identity) (now : ℤ) (vin : String)
    (σ : LedgerState) (w : Vehicle) (args : List (Option ℚ × Option ℚ × TsArg))
    (locs : List LocEntry) (e : LocEntry)
    (hrole : getClientRole ident = "controller")
    (hv : lookupA vin σ.vehicles = some w)
    (hlen : 20 < args.length) :
    lookupA vin (runLocs ident now vin args σ).vehicles =
      some { w with locations := lastN 20 (args.map (locEntryOf now)) } ∧
    (lastN 20 (args.map (locEntryOf now))).length = 20 ∧
    (pushLoc locs e).length ≤ 20 := by
  refine ⟨?_, ?_, pushLoc_length_le locs e⟩
  · rw [runLocs_locations ident now vin args σ w hrole hv,
      foldl_pushLoc_large _ _ (by simpa using hlen.le)]
  · rw [lastN, List.length_drop, List.length_map]; omega

/-- 21 identical location-report arguments, for the C7 witness. -/
def locArgs21 : List (Option ℚ × Option ℚ × TsArg) := List.replicate 21 (some 1, some 2, none)

/-- Witness for C7: 21 identical location reports on the sample vehicle. -/
theorem storeLocation_ringBuffer_witness :
    lookupA "7" (runLocs controllerId 0 "7" locArgs21 sampleState).vehicles =
      some { sampleVehicle with locations := lastN 20 (locArgs21.map (locEntryOf 0)) } ∧
    (lastN 20 (locArgs21.map (locEntryOf 0))).length = 20 ∧
    (pushLoc [] ⟨none, none, none⟩).length ≤ 20 :=
  storeLocation_ringBuffer controllerId 0 "7" sampleState sampleVehicle
    locArgs21 [] ⟨none, none, none⟩ (by decide) (by rfl) (by decide)

/-- Witness for C4 on a sample vehicle with distinct scores and a stale
persisted overall value. -/
theorem getVehicle_freshOverall_witness :
    runOp controllerId 3 (.getVehicle "8") sampleState8 =
      (sampleState8, Except.ok (Out.vehicleJson
        { sampleVehicle8 with
          overallTrustScore := some (roundHalfAwayFromZero
            ((97 + 100 + 100 + 100 + 100) / 5)) })) :=
  getVehicle_freshOverall controllerId 3 "8" sampleState8 sampleVehicle8
    (by decide) (by rfl) (by decide) (by decide) (by decide) (by decide) (by decide)

-- ---------- C2 (blackhole reduction magnitude) ----------

/-- The amount both blackhole penalties subtract:
`Math.max(0, Number(arg) || 1)`. -/
def blackholeReduceBy (arg : Option ℚ) : ℚ := max 0 (jsOrOne arg)

/-- C2 (amended): `reduceBlackholeScore` decreases the blackhole score by
exactly `max(0, Number(delta) || 1)` — the parsed delta when it parses to
a non-zero value, so possibly fractional, and clamped to zero (no
reduction at all) for negative input — floored at 0, persisting a
recomputed overall score; and `evaluateBlackholeVotes` applies the same
`max(0, Number(reduceBy) || 1)` reduction on a majority-zero window.  The
claimed `max(1, ...)` lower bound does not hold (see the
counterexample). -/
theorem blackholeReduction_formula (ident : Identity) (now : ℤ) (vin : String)
    (σ : LedgerState) (v : Vehicle) (arg : Option ℚ)
    (hrole : getClientRole ident = "controller")
    (hvin : vin ≠ "") (hv : lookupA vin σ.vehicles = some v) :
    (runOp ident now (.reduceBlackholeScore vin arg) σ =
      (putVeh σ vin
        { v with
          trustScoreBlackhole := max 0 (v.trustScoreBlackhole - blackholeReduceBy arg),
          overallTrustScore := some (computeOverallTrust
            { v with trustScoreBlackhole := max 0 (v.trustScoreBlackhole - blackholeReduceBy arg) }) },
        Except.ok (Out.blackReduce v.trustScoreBlackhole
          (max 0 (v.trustScoreBlackhole - blackholeReduceBy arg))
          (-(blackholeReduceBy arg))
          (toNumberOrZero (v.overallTrustScore.map (fun z => (z : ℚ))))
          (computeOverallTrust
            { v with trustScoreBlackhole := max 0 (v.trustScoreBlackhole - blackholeReduceBy arg) })))) ∧
    ((((v.neighborArrayBlackholeVotes.filter
          (fun e => inWindow (now - MS_10MIN) now e.timestamp)).filter
            (fun e => decide (e.vote = 1))).length <
      ((v.neighborArrayBlackholeVotes.filter
          (fun e => inWindow (now - MS_10MIN) now e.timestamp)).filter
            (fun e => !(decide (e.vote = 1)))).length) →
      runOp ident now (.evaluateBlackholeVotes vin arg) σ =
        (putVeh σ vin
          { v with
            trustScoreBlackhole := max 0 (v.trustScoreBlackhole - blackholeReduceBy arg),
            overallTrustScore := some (computeOverallTrust
              { v with trustScoreBlackhole := max 0 (v.trustScoreBlackhole - blackholeReduceBy arg) }) },
          Except.ok (Out.blackEval "penalized-majority0"
            (((v.neighborArrayBlackholeVotes.filter
              (fun e => inWindow (now - MS_10MIN) now e.timestamp)).filter
                (fun e => decide (e.vote = 1))).length)
            (((v.neighborArrayBlackholeVotes.filter
              (fun e => inWindow (now - MS_10MIN) now e.timestamp)).filter
                (fun e => !(decide (e.vote = 1)))).length)
            v.trustScoreBlackhole
            (max 0 (v.trustScoreBlackhole - blackholeReduceBy arg))
            (-(blackholeReduceBy arg))
            (some (computeOverallTrust
              { v with trustScoreBlackhole := max 0 (v.trustScoreBlackhole - blackholeReduceBy arg) }))))) := by
  have hr : requireRole ident ["controller"] = Except.ok (getClientRole ident) :=
    requireRole_ok ident _ (by rw [lowerRoles_c, hrole]; simp)
  constructor
  · simp [runOp, SDVN.reduceTrustScoreBlackhole, hr, hvin, hv, blackholeReduceBy]
  · intro hmaj
    have hW : v.neighborArrayBlackholeVotes.filter
        (fun e => inWindow (now - MS_10MIN) now e.timestamp) ≠ [] := by
      intro h0
      rw [h0] at hmaj
      simp at hmaj
    simp only [List.filter_filter] at hmaj
    simp [runOp, SDVN.evaluateBlackholeVotes, hr, hvin, hv, hW, hmaj, blackholeReduceBy]

/-- The reduced blackhole score for the C2 witness input `0.5`. -/
def redHalf : ℚ := max 0 (sampleVehicle.trustScoreBlackhole - blackholeReduceBy (some (1/2)))

/-- The sample vehicle after a manual reduction by `0.5`. -/
def sampleVehRedHalf : Vehicle :=
  { sampleVehicle with
    trustScoreBlackhole := redHalf,
    overallTrustScore := some (computeOverallTrust
      { sampleVehicle with trustScoreBlackhole := redHalf }) }

/-- In-window majority-1 blackhole vote count of the sample vehicle at time 0. -/
def sampleBlackOnes : ℕ :=
  ((sampleVehicle.neighborArrayBlackholeVotes.filter
    (fun e => inWindow (0 - MS_10MIN) 0 e.timestamp)).filter
      (fun e => decide (e.vote = 1))).length

/-- In-window majority-0 blackhole vote count of the sample vehicle at time 0. -/
def sampleBlackZeros : ℕ :=
  ((sampleVehicle.neighborArrayBlackholeVotes.filter
    (fun e => inWindow (0 - MS_10MIN) 0 e.timestamp)).filter
      (fun e => !(decide (e.vote = 1)))).length

/-- Witness for C2 (amended): a manual reduction by the string `0.5` on a
score of 100 (so the new score is the fractional 99.5). -/
theorem blackholeReduction_formula_witness :
    (runOp controllerId 0 (.reduceBlackholeScore "7" (some (1/2))) sampleState =
      (putVeh sampleState "7" sampleVehRedHalf,
        Except.ok (Out.blackReduce sampleVehicle.trustScoreBlackhole redHalf
          (-(blackholeReduceBy (some (1/2))))
          (toNumberOrZero (sampleVehicle.overallTrustScore.map (fun z => (z : ℚ))))
          (computeOverallTrust { sampleVehicle with trustScoreBlackhole := redHalf })))) ∧
    (sampleBlackOnes < sampleBlackZeros →
      runOp controllerId 0 (.evaluateBlackholeVotes "7" (some (1/2))) sampleState =
        (putVeh sampleState "7" sampleVehRedHalf,
          Except.ok (Out.blackEval "penalized-majority0" sampleBlackOnes sampleBlackZeros
            sampleVehicle.trustScoreBlackhole redHalf
            (-(blackholeReduceBy (some (1/2))))
            (some (computeOverallTrust
              { sampleVehicle with trustScoreBlackhole := redHalf }))))) :=
  blackholeReduction_formula controllerId 0 "7" sampleState sampleVehicle (some (1/2))
    (by decide) (by decide) (by rfl)

/-- Counterexample for C2 as stated: with `delta = "-3"` the code reduces
the blackhole score by `max(0, -3) = 0`, not by `max(1, -3‖1) = 1` — the
score stays at 100 (a reduction smaller than 1), refuting "the reduction
magnitude is never less than 1". -/
theorem blackholeReduction_claim_counterexample :
    (runOp controllerId 0 (.reduceBlackholeScore "7" (some (-3))) sampleState).2 =
      Except.ok (Out.blackReduce 100 100 0 0 100) ∧
    (100 : ℚ) - 100 < 1 := by
  constructor
  · have hr : requireRole controllerId ["controller"] = Except.ok "controller" := rfl
    have hv : lookupA "7" sampleState.vehicles = some sampleVehicle := rfl
    have h3 : ((-3:ℚ)) ≠ 0 := by norm_num
    have hm : max (0:ℚ) (-3) = 0 := max_eq_left (by norm_num)
    have hm2 : max (0:ℚ) (100 - 0) = 100 := by rw [sub_zero]; exact max_eq_right (by norm_num)
    simp only [runOp, SDVN.reduceTrustScoreBlackhole, hr, hv, jsOrOne, if_neg h3, hm,
      hm2, sub_zero]
    simp [sampleVehicle, computeOverallTrust, jsRound_all100, toNumberOrZero]
  · norm_num

-- ---------- C1 (generation-1 wormhole cross-validation) ----------

/-- The generation-1 evaluation window: wormhole votes with a parsable
timestamp in `[tRef − 10min, tRef]`. -/
def wormWindowVotes (v : Vehicle) (tRef : ℤ) : List WormVote :=
  v.neighborArray.filter (fun e => inWindow (tRef - MS_10MIN) tRef e.timestamp)

/-- In-window votes equal to 1. -/
def wormOnes (v : Vehicle) (tRef : ℤ) : List WormVote :=
  (wormWindowVotes v tRef).filter (fun e => decide (e.vote = 1))

/-- In-window votes different from 1. -/
def wormZeros (v : Vehicle) (tRef : ℤ) : List WormVote :=
  (wormWindowVotes v tRef).filter (fun e => !(decide (e.vote = 1)))

/-- The location comparison of the first in-window `1`-vote against the
reported coordinates, within `±0.0005` on both axes. -/
def wormMatchLoc (v : Vehicle) (tRef : ℤ) (lonV latV : Option ℚ) : Bool :=
  let loc : Loc := match (wormOnes v tRef).head? with
    | some e => e.location.getD ⟨none, none⟩
    | none => ⟨none, none⟩
  withinTolerance loc.longitude lonV && withinTolerance loc.latitude latV

theorem ensureOwns_ok (ident : Identity) (vin : String)
    (hown : ident.vinAttr = some vin) (hvin : vin ≠ "") :
    ensureVehicleOwnsVIN ident vin = Except.ok () := by
  rw [ensureVehicleOwnsVIN]
  split
  · rw [hown]
    simp [hvin]
  · rfl

/-- Characterization of generation-1 `crossValidation` on a non-empty
window, shared by the C1 theorem and its counterexample. -/
theorem crossValidation_v1_eval (ident : Identity) (now : ℤ) (vin : String)
    (lonV latV : Option ℚ) (tsArg : TsArg) (σ : LedgerState) (v : Vehicle) (tRef : ℤ)
    (hrole : getClientRole ident = "vehicle")
    (hown : ident.vinAttr = some vin)
    (hvin : vin ≠ "")
    (hv : lookupA vin σ.vehicles = some v)
    (hts : resolveTs tsArg now = some tRef)
    (hne : wormWindowVotes v tRef ≠ []) :
    ((wormZeros v tRef).length < (wormOnes v tRef).length →
      wormMatchLoc v tRef lonV latV = true →
      runOp ident now (.crossValidation vin lonV latV tsArg) σ =
        (σ, Except.ok (Out.wormCross "no-change" v.trustedScoreWromehole
          (max 0 v.trustedScoreWromehole) 0 (wormWindowVotes v tRef).length))) ∧
    ((wormZeros v tRef).length < (wormOnes v tRef).length →
      wormMatchLoc v tRef lonV latV = false →
      runOp ident now (.crossValidation vin lonV latV tsArg) σ =
        (putVeh σ vin { v with trustedScoreWromehole := max 0 (v.trustedScoreWromehole + -1) },
          Except.ok (Out.wormCross "penalized-mismatch" v.trustedScoreWromehole
            (max 0 (v.trustedScoreWromehole + -1)) (-1) (wormWindowVotes v tRef).length))) ∧
    ((wormOnes v tRef).length < (wormZeros v tRef).length →
      runOp ident now (.crossValidation vin lonV latV tsArg) σ =
        (putVeh σ vin { v with trustedScoreWromehole := max 0 (v.trustedScoreWromehole + -2) },
          Except.ok (Out.wormCross "penalized-majority0" v.trustedScoreWromehole
            (max 0 (v.trustedScoreWromehole + -2)) (-2) (wormWindowVotes v tRef).length))) ∧
    ((wormOnes v tRef).length = (wormZeros v tRef).length →
      runOp ident now (.crossValidation vin lonV latV tsArg) σ =
        (σ, Except.ok (Out.wormCross "no-majority" v.trustedScoreWromehole
          (max 0 v.trustedScoreWromehole) 0 (wormWindowVotes v tRef).length))) := by
  have hrr : requireRole ident ["vehicle"] = Except.ok (getClientRole ident) :=
    requireRole_ok ident _ (by rw [lowerRoles_v, hrole]; simp)
  have how : ensureVehicleOwnsVIN ident vin = Except.ok () := ensureOwns_ok ident vin hown hvin
  rw [wormWindowVotes] at hne
  refine ⟨?_, ?_, ?_, ?_⟩
  · intro hmaj hmatch
    rw [wormZeros, wormOnes, wormWindowVotes] at hmaj
    rw [wormMatchLoc, wormOnes, wormWindowVotes] at hmatch
    simp only [List.filter_filter, List.filter_head?] at hmaj hmatch
    simp [runOp, SDVN.crossValidation, hrr, how, hvin, hv, hts, hne, hmaj, hmatch,
      wormWindowVotes]
  · intro hmaj hmatch
    rw [wormZeros, wormOnes, wormWindowVotes] at hmaj
    rw [wormMatchLoc, wormOnes, wormWindowVotes] at hmatch
    simp only [List.filter_filter, List.filter_head?] at hmaj hmatch
    simp [runOp, SDVN.crossValidation, hrr, how, hvin, hv, hts, hne, hmaj, hmatch,
      wormWindowVotes]
  · intro hmaj
    rw [wormZeros, wormOnes, wormWindowVotes] at hmaj
    simp only [List.filter_filter] at hmaj
    have hmaj2 := Nat.lt_asymm hmaj
    simp [runOp, SDVN.crossValidation, hrr, how, hvin, hv, hts, hne, hmaj, hmaj2,
      wormWindowVotes]
  · intro heq
    rw [wormZeros, wormOnes, wormWindowVotes] at heq
    simp only [List.filter_filter] at heq
    have h1 : ¬ ((List.filter (fun e => !(decide (e.vote = 1)) &&
        inWindow (tRef - MS_10MIN) tRef e.timestamp) v.neighborArray).length <
        (List.filter (fun e => decide (e.vote = 1) &&
        inWindow (tRef - MS_10MIN) tRef e.timestamp) v.neighborArray).length) := by
      omega
    have h2 : ¬ ((List.filter (fun e => decide (e.vote = 1) &&
        inWindow (tRef - MS_10MIN) tRef e.timestamp) v.neighborArray).length <
        (List.filter (fun e => !(decide (e.vote = 1)) &&
        inWindow (tRef - MS_10MIN) tRef e.timestamp) v.neighborArray).length) := by
      omega
    simp [runOp, SDVN.crossValidation, hrr, how, hvin, hv, hts, hne, h1, h2,
      wormWindowVotes]

/-- C1 (amended): on a non-empty 10-minute window ending at the reference
time, generation-1 `crossValidation` behaves as claimed except that the
decision string on a successful location match is `no-change`, not
`match`: majority-1 with the first 1-vote location within ±0.0005 on both
axes leaves the score and the state unchanged (decision `no-change`);
majority-1 with a mismatch gives `penalized-mismatch` and −1; majority-0
gives `penalized-majority0` and −2; a tie gives `no-majority` and no
change; the score is floored at 0, and the record is written back exactly
in the two penalizing branches (the branches whose delta is non-zero). -/
theorem crossValidation_v1_decisions (ident : Identity) (now : ℤ) (vin : String)
    (lonV latV : Option ℚ) (tsArg : TsArg) (σ : LedgerState) (v : Vehicle) (tRef : ℤ)
    (hrole : getClientRole ident = "vehicle")
    (hown : ident.vinAttr = some vin)
    (hvin : vin ≠ "")
    (hv : lookupA vin σ.vehicles = some v)
    (hts : resolveTs tsArg now = some tRef)
    (hne : wormWindowVotes v tRef ≠ []) :
    ((wormZeros v tRef).length < (wormOnes v tRef).length →
      wormMatchLoc v tRef lonV latV = true →
      runOp ident now (.crossValidation vin lonV latV tsArg) σ =
        (σ, Except.ok (Out.wormCross "no-change" v.trustedScoreWromehole
          (max 0 v.trustedScoreWromehole) 0 (wormWindowVotes v tRef).length))) ∧
    ((wormZeros v tRef).length < (wormOnes v tRef).length →
      wormMatchLoc v tRef lonV latV = false →
      runOp ident now (.crossValidation vin lonV latV tsArg) σ =
        (putVeh σ vin { v with trustedScoreWromehole := max 0 (v.trustedScoreWromehole + -1) },
          Except.ok (Out.wormCross "penalized-mismatch" v.trustedScoreWromehole
            (max 0 (v.trustedScoreWromehole + -1)) (-1) (wormWindowVotes v tRef).length))) ∧
    ((wormOnes v tRef).length < (wormZeros v tRef).length →
      runOp ident now (.crossValidation vin lonV latV tsArg) σ =
        (putVeh σ vin { v with trustedScoreWromehole := max 0 (v.trustedScoreWromehole + -2) },
          Except.ok (Out.wormCross "penalized-majority0" v.trustedScoreWromehole
            (max 0 (v.trustedScoreWromehole + -2)) (-2) (wormWindowVotes v tRef).length))) ∧
    ((wormOnes v tRef).length = (wormZeros v tRef).length →
      runOp ident now (.crossValidation vin lonV latV tsArg) σ =
        (σ, Except.ok (Out.wormCross "no-majority" v.trustedScoreWromehole
          (max 0 v.trustedScoreWromehole) 0 (wormWindowVotes v tRef).length))) :=
  crossValidation_v1_eval ident now vin lonV latV tsArg σ v tRef hrole hown hvin hv hts hne

/-- The vehicle identity bound to VIN 1. -/
def vehicleId1 : Identity := ⟨some "vehicle", some "1"⟩

/-- A vehicle with one wormhole 1-vote at location (10, 20), time 1000. -/
def wormVehicle : Vehicle :=
  { sampleVehicle with
    vin := "1",
    neighborArray := [⟨some "n1", 1, some ⟨some 10, some 20⟩, some 1000⟩] }

/-- Ledger holding only `wormVehicle`. -/
def wormState : LedgerState := ⟨[], [("1", wormVehicle)]⟩

/-- Witness for C1 at the `wormVehicle` fixture. -/
theorem crossValidation_v1_decisions_witness :
    (((wormZeros wormVehicle 1000).length < (wormOnes wormVehicle 1000).length →
      wormMatchLoc wormVehicle 1000 (some 10) (some 20) = true →
      runOp vehicleId1 0 (.crossValidation "1" (some 10) (some 20) (some (some 1000))) wormState =
        (wormState, Except.ok (Out.wormCross "no-change" wormVehicle.trustedScoreWromehole
          (max 0 wormVehicle.trustedScoreWromehole) 0 (wormWindowVotes wormVehicle 1000).length))) ∧
    ((wormZeros wormVehicle 1000).length < (wormOnes wormVehicle 1000).length →
      wormMatchLoc wormVehicle 1000 (some 10) (some 20) = false →
      runOp vehicleId1 0 (.crossValidation "1" (some 10) (some 20) (some (some 1000))) wormState =
        (putVeh wormState "1"
          { wormVehicle with trustedScoreWromehole := max 0 (wormVehicle.trustedScoreWromehole + -1) },
          Except.ok (Out.wormCross "penalized-mismatch" wormVehicle.trustedScoreWromehole
            (max 0 (wormVehicle.trustedScoreWromehole + -1)) (-1)
            (wormWindowVotes wormVehicle 1000).length))) ∧
    ((wormOnes wormVehicle 1000).length < (wormZeros wormVehicle 1000).length →
      runOp vehicleId1 0 (.crossValidation "1" (some 10) (some 20) (some (some 1000))) wormState =
        (putVeh wormState "1"
          { wormVehicle with trustedScoreWromehole := max 0 (wormVehicle.trustedScoreWromehole + -2) },
          Except.ok (Out.wormCross "penalized-majority0" wormVehicle.trustedScoreWromehole
            (max 0 (wormVehicle.trustedScoreWromehole + -2)) (-2)
            (wormWindowVotes wormVehicle 1000).length))) ∧
    ((wormOnes wormVehicle 1000).length = (wormZeros wormVehicle 1000).length →
      runOp vehicleId1 0 (.crossValidation "1" (some 10) (some 20) (some (some 1000))) wormState =
        (wormState, Except.ok (Out.wormCross "no-majority" wormVehicle.trustedScoreWromehole
          (max 0 wormVehicle.trustedScoreWromehole) 0 (wormWindowVotes wormVehicle 1000).length)))) :=
  crossValidation_v1_decisions vehicleId1 0 "1" (some 10) (some 20) (some (some 1000))
    wormState wormVehicle 1000 (by decide) rfl (by decide) rfl rfl (by decide)

/-- Counterexample for C1 as stated: at a concrete input where the claim's
premise for the `match` decision holds — a majority of 1-votes whose first
vote's location (10, 20) is within tolerance of the report — the code
returns decision `no-change`, not `match`. -/
theorem crossValidation_v1_match_counterexample :
    (wormZeros wormVehicle 1000).length < (wormOnes wormVehicle 1000).length ∧
    wormMatchLoc wormVehicle 1000 (some 10) (some 20) = true ∧
    runOp vehicleId1 0 (.crossValidation "1" (some 10) (some 20) (some (some 1000))) wormState =
      (wormState, Except.ok (Out.wormCross "no-change" wormVehicle.trustedScoreWromehole
        (max 0 wormVehicle.trustedScoreWromehole) 0 (wormWindowVotes wormVehicle 1000).length)) ∧
    "no-change" ≠ "match" := by
  have hmatch : wormMatchLoc wormVehicle 1000 (some 10) (some 20) = true := by
    have h10 : withinTolerance (some (10:ℚ)) (some 10) = true := by
      simp only [withinTolerance, decide_eq_true_eq]
      norm_num [COORD_TOLERANCE_DEG]
    have h20 : withinTolerance (some (20:ℚ)) (some 20) = true := by
      simp only [withinTolerance, decide_eq_true_eq]
      norm_num [COORD_TOLERANCE_DEG]
    rw [wormMatchLoc,
      show (wormOnes wormVehicle 1000).head? =
        some ⟨some "n1", 1, some ⟨some 10, some 20⟩, some 1000⟩ from by decide]
    simp [h10, h20]
  obtain ⟨h1, -, -, -⟩ := crossValidation_v1_eval vehicleId1 0 "1" (some 10) (some 20)
    (some (some 1000)) wormState wormVehicle 1000 (by decide) rfl (by decide) rfl rfl (by decide)
  exact ⟨by decide, hmatch, h1 (by decide) hmatch, by decide⟩

-- ---------- C5 (generation-2 wormhole cross-validation) ----------

/-- The generation-2 evaluation window: wormhole votes with a parsable
timestamp in the 60 minutes ending at the transaction time. -/
def wormWindowVotesV3 (v : Vehicle) (now : ℤ) : List WormVote :=
  v.neighborArray.filter (fun e => inWindow (now - MS_60MIN) now e.timestamp)

/-- In-window votes equal to 1 (generation 2). -/
def wormOnesV3 (v : Vehicle) (now : ℤ) : List WormVote :=
  (wormWindowVotesV3 v now).filter (fun e => decide (e.vote = 1))

/-- In-window votes different from 1 (generation 2). -/
def wormZerosV3 (v : Vehicle) (now : ℤ) : List WormVote :=
  (wormWindowVotesV3 v now).filter (fun e => !(decide (e.vote = 1)))

/-- The vote log `crossValidationV3` retains: entries with a parsable
timestamp strictly newer than 24 hours ago. -/
def wormPurged (v : Vehicle) (now : ℤ) : List WormVote :=
  v.neighborArray.filter (fun e => match e.timestamp with
    | some t => decide (now - MS_24H < t)
    | none => false)

/-- The wormhole score `crossValidationV3` leaves: one point off (floored
at 0) exactly on a majority-zero window. -/
def v3NewScore (v : Vehicle) (now : ℤ) : ℚ :=
  if (wormOnesV3 v now).length < (wormZerosV3 v now).length
  then max 0 (v.trustedScoreWromehole + -1) else v.trustedScoreWromehole

/-- The decision string `crossValidationV3` reports. -/
def v3Decision (v : Vehicle) (now : ℤ) : String :=
  if (wormWindowVotesV3 v now).length ≠ 0 then
    if (wormOnesV3 v now).length < (wormZerosV3 v now).length then "penalized-majority0"
    else if (wormZerosV3 v now).length < (wormOnesV3 v now).length then "no-penalty-majority1"
    else "no-majority"
  else "no-votes"

/-- The record `crossValidationV3` persists. -/
def v3Result (v : Vehicle) (now : ℤ) : Vehicle :=
  { v with
    trustedScoreWromehole := v3NewScore v now,
    overallTrustScore := some (computeOverallTrust
      { v with trustedScoreWromehole := v3NewScore v now }),
    neighborArray := wormPurged v now }

/-- C5: `crossValidationV3` evaluates the majority over the 60-minute
window ending at the transaction time; a majority of zeros costs one point
(floored at 0) while a majority of ones or a tie leaves the score
unchanged; and regardless of the decision it persists, in one write, the
`overallTrustScore` recomputed from the five current sub-scores and the
vote log purged of every entry that is older than 24 hours (or has an
unparsable timestamp). -/
theorem crossValidationV3_spec (ident : Identity) (now : ℤ) (vin : String)
    (σ : LedgerState) (v : Vehicle) (e : WormVote)
    (hrole : getClientRole ident = "controller")
    (hvin : vin ≠ "") (hv : lookupA vin σ.vehicles = some v) :
    runOp ident now (.crossValidationV3 vin) σ =
      (putVeh σ vin (v3Result v now),
        Except.ok (Out.wormCrossV3 (v3Decision v now) v.trustedScoreWromehole
          (v3NewScore v now)
          (if (wormOnesV3 v now).length < (wormZerosV3 v now).length then -1 else 0)
          (wormWindowVotesV3 v now).length
          (computeOverallTrust { v with trustedScoreWromehole := v3NewScore v now })
          (v.neighborArray.length - (wormPurged v now).length))) ∧
    ((wormZerosV3 v now).length ≤ (wormOnesV3 v now).length →
      v3NewScore v now = v.trustedScoreWromehole) ∧
    ((wormOnesV3 v now).length < (wormZerosV3 v now).length →
      v3NewScore v now = max 0 (v.trustedScoreWromehole + -1)) ∧
    ((v3Result v now).overallTrustScore =
      some (computeOverallTrust { v with trustedScoreWromehole := v3NewScore v now })) ∧
    ((v3Result v now).neighborArray = wormPurged v now) ∧
    (e ∈ wormPurged v now ↔ e ∈ v.neighborArray ∧
      (match e.timestamp with
        | some t => decide (now - MS_24H < t)
        | none => false) = true) := by
  have hr : requireRole ident ["controller"] = Except.ok (getClientRole ident) :=
    requireRole_ok ident _ (by rw [lowerRoles_c, hrole]; simp)
  refine ⟨?_, ?_, ?_, rfl, rfl, List.mem_filter⟩
  · by_cases hw : (wormWindowVotesV3 v now).length = 0
    · have h1 : (wormOnesV3 v now).length = 0 := by
        have := List.length_filter_le (fun e => decide (e.vote = 1)) (wormWindowVotesV3 v now)
        rw [wormOnesV3]
        omega
      have h2 : (wormZerosV3 v now).length = 0 := by
        have := List.length_filter_le (fun e => !(decide (e.vote = 1))) (wormWindowVotesV3 v now)
        rw [wormZerosV3]
        omega
      rw [v3Result, v3Decision, v3NewScore] at *
      simp only [wormOnesV3, wormZerosV3, wormWindowVotesV3, wormPurged,
        List.filter_filter] at h1 h2 hw ⊢
      simp [runOp, SDVN.crossValidationV3, hr, hvin, hv, hw, h1, h2]
    · rcases Nat.lt_trichotomy (wormOnesV3 v now).length (wormZerosV3 v now).length
        with h | h | h
      · have h2 := Nat.lt_asymm h
        rw [v3Result, v3Decision, v3NewScore] at *
        simp only [wormOnesV3, wormZerosV3, wormWindowVotesV3, wormPurged,
          List.filter_filter] at h h2 hw ⊢
        simp [runOp, SDVN.crossValidationV3, hr, hvin, hv, hw, h, h2]
      · have h1 : ¬ ((wormOnesV3 v now).length < (wormZerosV3 v now).length) := by omega
        have h2 : ¬ ((wormZerosV3 v now).length < (wormOnesV3 v now).length) := by omega
        rw [v3Result, v3Decision, v3NewScore] at *
        simp only [wormOnesV3, wormZerosV3, wormWindowVotesV3, wormPurged,
          List.filter_filter] at h1 h2 hw ⊢
        simp [runOp, SDVN.crossValidationV3, hr, hvin, hv, hw, h1, h2]
      · have h1 := Nat.lt_asymm h
        rw [v3Result, v3Decision, v3NewScore] at *
        simp only [wormOnesV3, wormZerosV3, wormWindowVotesV3, wormPurged,
          List.filter_filter] at h h1 hw ⊢
        simp [runOp, SDVN.crossValidationV3, hr, hvin, hv, hw, h, h1]
  · intro hle
    rw [v3NewScore, if_neg (by omega)]
  · intro hlt
    rw [v3NewScore, if_pos hlt]

/-- Witness for C5 on the sample vehicle (empty vote log). -/
theorem crossValidationV3_spec_witness :
    runOp controllerId 0 (.crossValidationV3 "7") sampleState =
      (putVeh sampleState "7" (v3Result sampleVehicle 0),
        Except.ok (Out.wormCrossV3 (v3Decision sampleVehicle 0)
          sampleVehicle.trustedScoreWromehole
          (v3NewScore sampleVehicle 0)
          (if (wormOnesV3 sampleVehicle 0).length < (wormZerosV3 sampleVehicle 0).length
            then -1 else 0)
          (wormWindowVotesV3 sampleVehicle 0).length
          (computeOverallTrust
            { sampleVehicle with trustedScoreWromehole := v3NewScore sampleVehicle 0 })
          (sampleVehicle.neighborArray.length - (wormPurged sampleVehicle 0).length))) ∧
    ((wormZerosV3 sampleVehicle 0).length ≤ (wormOnesV3 sampleVehicle 0).length →
      v3NewScore sampleVehicle 0 = sampleVehicle.trustedScoreWromehole) ∧
    ((wormOnesV3 sampleVehicle 0).length < (wormZerosV3 sampleVehicle 0).length →
      v3NewScore sampleVehicle 0 = max 0 (sampleVehicle.trustedScoreWromehole + -1)) ∧
    ((v3Result sampleVehicle 0).overallTrustScore =
      some (computeOverallTrust
        { sampleVehicle with trustedScoreWromehole := v3NewScore sampleVehicle 0 })) ∧
    ((v3Result sampleVehicle 0).neighborArray = wormPurged sampleVehicle 0) ∧
    (⟨none, 1, none, some (-MS_24H)⟩ ∈ wormPurged sampleVehicle 0 ↔
      (⟨none, 1, none, some (-MS_24H)⟩ : WormVote) ∈ sampleVehicle.neighborArray ∧
      (match (some (-MS_24H) : Ts) with
        | some t => decide (0 - MS_24H < t)
        | none => false) = true) :=
  crossValidationV3_spec controllerId 0 "7" sampleState sampleVehicle
    ⟨none, 1, none, some (-MS_24H)⟩ (by decide) (by decide) (by rfl)

-- ---------- C9 (replay store / check round trip) ----------

/-- C9: storing a flow id and checking it within 24 hours reports
`exists = true` without touching the state; checking when the only stored
entry is more than 24 hours old reports `exists = false` and removes the
entry from the persisted log. -/
theorem replay_storeThenCheck (ident : Identity) (now1 now2 now3 : ℤ)
    (senderVin flowId : String) (σ : LedgerState) (v : Vehicle) (τ : ℤ)
    (hrole : getClientRole ident = "vehicle")
    (hsv : senderVin ≠ "") (hf : flowId ≠ "")
    (hv : lookupA senderVin σ.vehicles = some v)
    (hempty : v.flowIdReplay = [])
    (h2a : now2 - MS_24H ≤ τ) (h2b : τ ≤ now2)
    (h3 : τ < now3 - MS_24H) :
    ((runOp ident now2 (.checkFlowIdReplay senderVin flowId)
        (runOp ident now1 (.storeFlowIdReplay senderVin flowId (some (some τ))) σ).1).2 =
      Except.ok (Out.replayCheck true 1 0 now2)) ∧
    ((runOp ident now2 (.checkFlowIdReplay senderVin flowId)
        (runOp ident now1 (.storeFlowIdReplay senderVin flowId (some (some τ))) σ).1).1 =
      (runOp ident now1 (.storeFlowIdReplay senderVin flowId (some (some τ))) σ).1) ∧
    ((runOp ident now3 (.checkFlowIdReplay senderVin flowId)
        (runOp ident now1 (.storeFlowIdReplay senderVin flowId (some (some τ))) σ).1).2 =
      Except.ok (Out.replayCheck false 0 1 now3)) ∧
    (lookupA senderVin (runOp ident now3 (.checkFlowIdReplay senderVin flowId)
        (runOp ident now1 (.storeFlowIdReplay senderVin flowId (some (some τ))) σ).1).1.vehicles =
      some { v with flowIdReplay := [] }) := by
  have hr : requireRole ident ["vehicle"] = Except.ok (getClientRole ident) :=
    requireRole_ok ident _ (by rw [lowerRoles_v, hrole]; simp)
  have hstore : (runOp ident now1 (.storeFlowIdReplay senderVin flowId (some (some τ))) σ).1 =
      putVeh σ senderVin { v with flowIdReplay := [⟨flowId, some τ⟩] } := by
    simp [runOp, SDVN.storeFlowIdReplay, hr, hsv, hf, hv, resolveTs, hempty]
  have hlook : lookupA senderVin (putVeh σ senderVin
      { v with flowIdReplay := [⟨flowId, some τ⟩] }).vehicles =
      some { v with flowIdReplay := [⟨flowId, some τ⟩] } :=
    lookupA_putAssoc_self senderVin _ σ.vehicles
  have hin2 : inWindow (now2 - MS_24H) now2 (some τ) = true := by
    simp [inWindow, h2a, h2b]
  have hin3 : inWindow (now3 - MS_24H) now3 (some τ) = false := by
    simp [inWindow]
    intro hc
    omega
  rw [hstore]
  refine ⟨?_, ?_, ?_, ?_⟩
  · simp [runOp, SDVN.checkFlowIdReplay, hr, hsv, hf, hlook, hin2]
  · simp [runOp, SDVN.checkFlowIdReplay, hr, hsv, hf, hlook, hin2]
  · simp [runOp, SDVN.checkFlowIdReplay, hr, hsv, hf, hlook, hin3]
  · simp [runOp, SDVN.checkFlowIdReplay, hr, hsv, hf, hlook, hin3, putVeh,
      lookupA_putAssoc_self]

/-- Witness for C9: flow id `f1` stored at time 500 for the sample
vehicle, checked at time 1000 and again 24 hours and 501 ms later. -/
theorem replay_storeThenCheck_witness :
    ((runOp vehicleId7 1000 (.checkFlowIdReplay "7" "f1")
        (runOp vehicleId7 0 (.storeFlowIdReplay "7" "f1" (some (some 500))) sampleState).1).2 =
      Except.ok (Out.replayCheck true 1 0 1000)) ∧
    ((runOp vehicleId7 1000 (.checkFlowIdReplay "7" "f1")
        (runOp vehicleId7 0 (.storeFlowIdReplay "7" "f1" (some (some 500))) sampleState).1).1 =
      (runOp vehicleId7 0 (.storeFlowIdReplay "7" "f1" (some (some 500))) sampleState).1) ∧
    ((runOp vehicleId7 86401001 (.checkFlowIdReplay "7" "f1")
        (runOp vehicleId7 0 (.storeFlowIdReplay "7" "f1" (some (some 500))) sampleState).1).2 =
      Except.ok (Out.replayCheck false 0 1 86401001)) ∧
    (lookupA "7" (runOp vehicleId7 86401001 (.checkFlowIdReplay "7" "f1")
        (runOp vehicleId7 0 (.storeFlowIdReplay "7" "f1" (some (some 500))) sampleState).1).1.vehicles =
      some { sampleVehicle with flowIdReplay := [] }) :=
  replay_storeThenCheck vehicleId7 0 1000 86401001 "7" "f1" sampleState sampleVehicle 500
    (by decide) (by decide) (by decide) (by rfl) (by rfl) (by decide) (by decide) (by decide)

-- ---------- C10 (purges drop unparsable and future timestamps) ----------

/-- The poison-vote entries `crossValidationPoison` retains: parsable
timestamps not older than 24 hours before the reference time (no upper
bound, so future entries stay). -/
def poisonKept (v : Vehicle) (tRef : ℤ) : List PoisonVote :=
  v.neighborArrayRoutingData.filter (fun e => match e.timestamp with
    | some t => decide (tRef - MS_24H ≤ t)
    | none => false)

/-- The flow-id entries `checkFlowIdReplay` retains: parsable timestamps
within `[now − 24h, now]` — entries in the future of the transaction time
are dropped too. -/
def replayKept (w : Vehicle) (now : ℤ) : List FlowEntry :=
  w.flowIdReplay.filter (fun e => inWindow (now - MS_24H) now e.timestamp)

/-- C10: after any `crossValidationPoison` call the persisted poison log
is exactly the entries with a parsable timestamp at most 24 hours old
(unparsable timestamps are permanently dropped), whatever the majority
outcome; and `checkFlowIdReplay` persists exactly the entries with a
parsable timestamp in `[now − 24h, now]` — dropping unparsable and future
timestamps — counting everything dropped in the reported `purged`. -/
theorem purge_dropsUnparsableAndFuture
    (ident : Identity) (now : ℤ) (vin : String) (rdV : RoutingData) (tsArg : TsArg)
    (σ : LedgerState) (v : Vehicle) (tRef : ℤ) (e : PoisonVote)
    (ident2 : Identity) (now2 : ℤ) (sv f : String) (σ2 : LedgerState) (w : Vehicle)
    (e2 : FlowEntry)
    (hrole : getClientRole ident = "vehicle") (hown : ident.vinAttr = some vin)
    (hvin : vin ≠ "") (hv : lookupA vin σ.vehicles = some v)
    (hts : resolveTs tsArg now = some tRef)
    (hrole2 : getClientRole ident2 = "vehicle") (hsv : sv ≠ "") (hf : f ≠ "")
    (hw : lookupA sv σ2.vehicles = some w) :
    ((lookupA vin (runOp ident now (.crossValidationPoison vin rdV tsArg) σ).1.vehicles).map
        (fun u => u.neighborArrayRoutingData) = some (poisonKept v tRef)) ∧
    (e ∈ poisonKept v tRef ↔ e ∈ v.neighborArrayRoutingData ∧
      (match e.timestamp with
        | some t => decide (tRef - MS_24H ≤ t)
        | none => false) = true) ∧
    ((lookupA sv (runOp ident2 now2 (.checkFlowIdReplay sv f) σ2).1.vehicles).map
        (fun u => u.flowIdReplay) = some (replayKept w now2)) ∧
    ((runOp ident2 now2 (.checkFlowIdReplay sv f) σ2).2 =
      Except.ok (Out.replayCheck ((replayKept w now2).any (fun x => x.flowId == f))
        (replayKept w now2).length
        (w.flowIdReplay.length - (replayKept w now2).length) now2)) ∧
    (e2 ∈ replayKept w now2 ↔ e2 ∈ w.flowIdReplay ∧
      inWindow (now2 - MS_24H) now2 e2.timestamp = true) := by
  have hr : requireRole ident ["vehicle"] = Except.ok (getClientRole ident) :=
    requireRole_ok ident _ (by rw [lowerRoles_v, hrole]; simp)
  have how : ensureVehicleOwnsVIN ident vin = Except.ok () := ensureOwns_ok ident vin hown hvin
  have hr2 : requireRole ident2 ["vehicle"] = Except.ok (getClientRole ident2) :=
    requireRole_ok ident2 _ (by rw [lowerRoles_v, hrole2]; simp)
  refine ⟨?_, List.mem_filter, ?_, ?_, List.mem_filter⟩
  · simp only [runOp, SDVN.crossValidationPoison, hr, how, poisonKept]
    simp only [hvin, ite_false, if_neg, hv, hts]
    by_cases hk : (List.filter (fun e => match e.timestamp with
        | some t => decide (tRef - MS_24H ≤ t)
        | none => false) v.neighborArrayRoutingData).length = v.neighborArrayRoutingData.length
    · have hkeq : (List.filter (fun e => match e.timestamp with
          | some t => decide (tRef - MS_24H ≤ t)
          | none => false) v.neighborArrayRoutingData) = v.neighborArrayRoutingData :=
        (List.filter_sublist _).eq_of_length hk
      simp only [hk, ne_eq, not_true_eq_false, if_false, hkeq]
      repeat' split
      all_goals first
        | (rw [hv]; rfl)
        | (simp only [putVeh]; rw [lookupA_putAssoc_self]; rfl)
    · simp only [ne_eq, hk, not_false_eq_true, if_true]
      repeat' split
      all_goals simp only [putVeh]
      all_goals (rw [lookupA_putAssoc_self]; rfl)
  · simp only [runOp, SDVN.checkFlowIdReplay, hr2, replayKept]
    simp only [hsv, hf, hw, or_self, ite_false]
    by_cases hp : (List.filter (fun e => inWindow (now2 - MS_24H) now2 e.timestamp)
        w.flowIdReplay).length = w.flowIdReplay.length
    · have hpeq : List.filter (fun e => inWindow (now2 - MS_24H) now2 e.timestamp)
          w.flowIdReplay = w.flowIdReplay :=
        (List.filter_sublist _).eq_of_length hp
      have hz : ¬ (0 < w.flowIdReplay.length -
          (List.filter (fun e => inWindow (now2 - MS_24H) now2 e.timestamp)
            w.flowIdReplay).length) := by
        omega
      rw [if_neg hz, hw, hpeq]
      rfl
    · have hz : 0 < w.flowIdReplay.length -
          (List.filter (fun e => inWindow (now2 - MS_24H) now2 e.timestamp)
            w.flowIdReplay).length := by
        have := List.length_filter_le
          (fun e => inWindow (now2 - MS_24H) now2 e.timestamp) w.flowIdReplay
        omega
      rw [if_pos hz]
      simp only [putVeh]
      rw [lookupA_putAssoc_self]
      rfl
  · simp only [runOp, SDVN.checkFlowIdReplay, hr2, replayKept]
    simp only [hsv, hf, hw, or_self, ite_false]

/-- A vehicle whose poison and flow-id logs hold entries with unparsable,
old, current and future timestamps, for the C10 witness. -/
def purgeVehicle : Vehicle :=
  { sampleVehicle with
    neighborArrayRoutingData :=
      [⟨"n1", 1, none, none⟩, ⟨"n2", 0, none, some (-MS_24H - 1)⟩, ⟨"n3", 0, none, some 0⟩],
    flowIdReplay := [⟨"f1", none⟩, ⟨"f2", some (-MS_24H - 1)⟩, ⟨"f3", some 0⟩, ⟨"f4", some 99⟩] }

/-- Ledger holding only `purgeVehicle` under VIN 7. -/
def purgeState : LedgerState := ⟨[], [("7", purgeVehicle)]⟩

/-- Witness for C10: cross-validating and checking on `purgeVehicle` at
time 0 (so the `f4` entry at time 99 lies in the future). -/
theorem purge_dropsUnparsableAndFuture_witness :
    ((lookupA "7" (runOp vehicleId7 0
        (.crossValidationPoison "7" ⟨none, none, none, none, none, none, none, none⟩
          (some (some 0))) purgeState).1.vehicles).map
        (fun u => u.neighborArrayRoutingData) = some (poisonKept purgeVehicle 0)) ∧
    ((⟨"n1", 1, none, none⟩ : PoisonVote) ∈ poisonKept purgeVehicle 0 ↔
      (⟨"n1", 1, none, none⟩ : PoisonVote) ∈ purgeVehicle.neighborArrayRoutingData ∧
      (match (none : Ts) with
        | some t => decide (0 - MS_24H ≤ t)
        | none => false) = true) ∧
    ((lookupA "7" (runOp vehicleId7 0 (.checkFlowIdReplay "7" "f1") purgeState).1.vehicles).map
        (fun u => u.flowIdReplay) = some (replayKept purgeVehicle 0)) ∧
    ((runOp vehicleId7 0 (.checkFlowIdReplay "7" "f1") purgeState).2 =
      Except.ok (Out.replayCheck ((replayKept purgeVehicle 0).any (fun x => x.flowId == "f1"))
        (replayKept purgeVehicle 0).length
        (purgeVehicle.flowIdReplay.length - (replayKept purgeVehicle 0).length) 0)) ∧
    ((⟨"f4", some 99⟩ : FlowEntry) ∈ replayKept purgeVehicle 0 ↔
      (⟨"f4", some 99⟩ : FlowEntry) ∈ purgeVehicle.flowIdReplay ∧
      inWindow (0 - MS_24H) 0 (some 99) = true) :=
  purge_dropsUnparsableAndFuture vehicleId7 0 "7"
    ⟨none, none, none, none, none, none, none, none⟩ (some (some 0)) purgeState purgeVehicle 0
    ⟨"n1", 1, none, none⟩ vehicleId7 0 "7" "f1" purgeState purgeVehicle ⟨"f4", some 99⟩
    (by decide) rfl (by decide) (by rfl) rfl (by decide) (by decide) (by decide) (by rfl)

end SDVN
